import Mathlib

/-!
Loons Team Balancer: the team board (`src/app/components/ui/Teams/Teams.js`), the password
forms (`components/ui/PasswordReset`, `components/ui/PasswordHelp`) and the API routes
(`api/reset-password`, `api/verify-credentials`, `api/send-temporary-password`).

A shallow embedding of the drag-and-drop hook `useDragAndDrop`, of the pure derivations of the
`Teams` component, of the submit handlers of the two forms and of the three `POST` handlers,
followed by the properties proved about them.

Modelling conventions.

* A JavaScript array is a `List`; an array slot of a player list is an `Option Player`,
  `none` standing for `undefined` (the value `players[i]` has for an index outside the array,
  and the value `push` stores when it is handed such a read).
* Indices are natural numbers: they come from `Array.prototype.map` and from the
  `data-team-index` attribute the component renders.
* Score fields are integers (`Int`); the sums below are exact integer sums.
* Player objects are never written to by the code modelled here, so a player is its value.
  Team objects are written to in place (`splice`, `push`); the roster is taken to hold pairwise
  distinct team objects with pairwise distinct player arrays, and the in-place state of those arrays
  when a handler exits is part of the handler's result (`Outcome.teamsNow`).
* A handler reads the React state of the render it was created in and schedules updates;
  the model takes the render-time state as input and returns the state after the updates.
-/

namespace TeamBalancer

/-! ## Data model -/

/-- Gender of a player: `other` stands for an absent or unrecognised value. -/
inductive Gender where
  | male
  | female
  | other
deriving DecidableEq, Repr

/-- The player record used by the tests (`mockPlayer1` ...): id, name, six scores, gender. -/
structure Player where
  _id : Option String
  name : String
  gameKnowledgeScore : Int
  goalScoringScore : Int
  attackScore : Int
  midfieldScore : Int
  defenseScore : Int
  fitnessScore : Int
  gender : Gender
deriving DecidableEq, Repr

/-- A slot of a player array: `none` is the JavaScript value `undefined`. -/
abbrev Slot := Option Player

/-- The `genderCount` object of a team; `other` is the fallback bucket. -/
structure GenderCount where
  male : Nat
  female : Nat
  other : Nat
deriving DecidableEq, Repr

/-- A team record: the player array and the cached aggregate fields. -/
structure Team where
  players : List Slot
  totalScore : Int
  totalGameKnowledgeScore : Int
  totalGoalScoringScore : Int
  totalAttackScore : Int
  totalMidfieldScore : Int
  totalDefenseScore : Int
  totalFitnessScore : Int
  genderCount : GenderCount
deriving DecidableEq, Repr

/-- The roster `balancedTeams`: an ordered list of teams. -/
abbrev Roster := List Team

/-! ## Team statistics (`utils/teamStats`, imported at `Teams.js:2`) -/

/-- The aggregate fields before any player has been counted, over the given player array. -/
def zeroStats (players : List Slot) : Team :=
  { players := players
    totalScore := 0
    totalGameKnowledgeScore := 0
    totalGoalScoringScore := 0
    totalAttackScore := 0
    totalMidfieldScore := 0
    totalDefenseScore := 0
    totalFitnessScore := 0
    genderCount := { male := 0, female := 0, other := 0 } }

/-- One more tally in the bucket of gender `g`. -/
def tallyGender (c : GenderCount) (g : Gender) : GenderCount :=
  match g with
  | Gender.male => { c with male := c.male + 1 }
  | Gender.female => { c with female := c.female + 1 }
  | Gender.other => { c with other := c.other + 1 }

/-- One accumulation step of the aggregator: add the scores and the gender of one slot. -/
def accumulate (acc : Team) (slot : Slot) : Team :=
  match slot with
  | none => acc
  | some pl =>
    { acc with
      totalScore := acc.totalScore +
        (pl.gameKnowledgeScore + pl.goalScoringScore + pl.attackScore +
          pl.midfieldScore + pl.defenseScore + pl.fitnessScore)
      totalGameKnowledgeScore := acc.totalGameKnowledgeScore + pl.gameKnowledgeScore
      totalGoalScoringScore := acc.totalGoalScoringScore + pl.goalScoringScore
      totalAttackScore := acc.totalAttackScore + pl.attackScore
      totalMidfieldScore := acc.totalMidfieldScore + pl.midfieldScore
      totalDefenseScore := acc.totalDefenseScore + pl.defenseScore
      totalFitnessScore := acc.totalFitnessScore + pl.fitnessScore
      genderCount := tallyGender acc.genderCount pl.gender }

/-- Modelled from the spec: `calculateTeamStats` of `src/app/utils/teamStats.js`, a file that is
not part of the sources at hand (only its import, its two call sites and the test helper
`createTeamWithStats` are). Section 4.1 of the specification: the input is a team-like object
holding a list of players, possibly empty; the output is the same object with the total score (the
sum of all score fields across all players), the per-category score subtotals and the gender counts
overwritten; zero players give all sums zero and all counts zero; the function is pure. The
specification speaks of lists of players only; an `undefined` slot, which nothing but an
out-of-range move can create, is left uncounted here. -/
def calculateTeamStats (team : Team) : Team :=
  team.players.foldl accumulate (zeroStats team.players)

/-! ## The drag-and-drop hook `useDragAndDrop` (`Teams.js:9-334`) -/

/-- The JavaScript exceptions the modelled code can raise. -/
inductive JsError where
  | typeError
deriving DecidableEq, Repr

/-- The `draggedPlayer` state object `{ teamIndex, playerIndex, playerId }`. -/
structure DraggedPlayer where
  teamIndex : Nat
  playerIndex : Nat
  playerId : Option String
deriving DecidableEq, Repr

/-- The `touchState` state object (`Teams.js:11-17` and `89-98`). Elements are named by a number;
the three last fields exist only on the object stored by `handleTouchStart`. -/
structure TouchState where
  isDragging : Bool
  startY : Int
  startX : Int
  currentElement : Option Nat
  ghostElement : Option Nat
  teamIndex : Option Nat
  playerIndex : Option Nat
  playerId : Option String
deriving DecidableEq, Repr

/-- The initial touch state, also the value every reset stores (`Teams.js:11-17`). -/
def TouchState.initial : TouchState :=
  { isDragging := false
    startY := 0
    startX := 0
    currentElement := none
    ghostElement := none
    teamIndex := none
    playerIndex := none
    playerId := none }

/-- The state the hook owns or touches between two events: the two React states, the interval
held by `autoScrollIntervalRef` (named by its scroll amount per tick), the drop zones carrying the
class `drag-over-highlight` and the ghost elements attached to the document body. The opacity and
border classes of the dragged element are not modelled. -/
structure Hook where
  draggedPlayer : Option DraggedPlayer
  touchState : TouchState
  autoScrollInterval : Option Int
  highlighted : List Nat
  ghosts : List Nat
deriving DecidableEq, Repr

/-- The hook at rest: no session, no highlight, no ghost, no timer. -/
def Hook.idle : Hook :=
  { draggedPlayer := none
    touchState := TouchState.initial
    autoScrollInterval := none
    highlighted := []
    ghosts := [] }

/-- What one handler call did: the hook state afterwards, the exception it ended with if any, the
arguments of its calls of `setBalancedTeams` in order, and the team objects of the input roster as
they are when the handler exits (`teamsNow`): their player arrays carry the writes of `splice` and
`push`, their aggregate fields are the ones they had, the aggregator being pure. -/
structure Outcome where
  hook : Hook
  threw : Option JsError
  published : List Roster
  teamsNow : Roster
deriving DecidableEq, Repr

/-- The result of the move block alone. -/
structure MoveResult where
  threw : Option JsError
  published : List Roster
  teamsNow : Roster
deriving DecidableEq, Repr

/-- The move block, `Teams.js:63-79`, repeated word for word at `Teams.js:292-309`.

`Array.from` copies the array of team references only, so `splice` and `push` write to the player
arrays of the input roster. Reading `.players` of a missing team throws a `TypeError`;
`players[playerIndex]` outside the array is `undefined`; `splice(playerIndex, 1)` outside the array
removes nothing. -/
def moveBlock (balancedTeams : Roster) (sourceTeamIndex playerIndex destTeamIndex : Nat) :
    MoveResult :=
  -- const newBalancedTeams = Array.from(balancedTeams)
  let newBalancedTeams := balancedTeams
  -- const movedPlayer = newBalancedTeams[sourceTeamIndex].players[playerIndex]
  match newBalancedTeams[sourceTeamIndex]? with
  | none =>
    { threw := some JsError.typeError
      published := []
      teamsNow := newBalancedTeams }
  | some source =>
    let movedPlayer : Slot := (source.players[playerIndex]?).join
    -- newBalancedTeams[sourceTeamIndex].players.splice(playerIndex, 1)
    let afterSplice :=
      newBalancedTeams.set sourceTeamIndex
        { source with players := source.players.eraseIdx playerIndex }
    -- newBalancedTeams[destTeamIndex].players.push(movedPlayer)
    match afterSplice[destTeamIndex]? with
    | none =>
      { threw := some JsError.typeError
        published := []
        teamsNow := afterSplice }
    | some dest =>
      let afterPush :=
        afterSplice.set destTeamIndex { dest with players := dest.players ++ [movedPlayer] }
      -- newBalancedTeams[sourceTeamIndex] = calculateTeamStats(newBalancedTeams[sourceTeamIndex])
      let afterSourceStats :=
        match afterPush[sourceTeamIndex]? with
        | some t => afterPush.set sourceTeamIndex (calculateTeamStats t)
        | none => afterPush
      -- newBalancedTeams[destTeamIndex] = calculateTeamStats(newBalancedTeams[destTeamIndex])
      let afterDestStats :=
        match afterSourceStats[destTeamIndex]? with
        | some t => afterSourceStats.set destTeamIndex (calculateTeamStats t)
        | none => afterSourceStats
      -- setBalancedTeams(newBalancedTeams)
      { threw := none
        published := [afterDestStats]
        teamsNow := afterPush }

/-- The handler `handleDrop(e, destTeamIndex)`, `Teams.js:54-80`. The event target
`e.currentTarget` is the drop zone of `destTeamIndex` (`Teams.js:480`). -/
def handleDrop (hook : Hook) (balancedTeams : Roster) (destTeamIndex : Nat) : Outcome :=
  -- e.preventDefault(); e.currentTarget.classList.remove('drag-over-highlight')
  let hook1 := { hook with highlighted := hook.highlighted.filter (fun z => z != destTeamIndex) }
  -- const { teamIndex: sourceTeamIndex, playerIndex } = draggedPlayer
  match hook.draggedPlayer with
  | none =>
    { hook := hook1
      threw := some JsError.typeError
      published := []
      teamsNow := balancedTeams }
  | some dragged =>
    -- if (sourceTeamIndex === destTeamIndex) return
    if dragged.teamIndex = destTeamIndex then
      { hook := hook1
        threw := none
        published := []
        teamsNow := balancedTeams }
    else
      let r := moveBlock balancedTeams dragged.teamIndex dragged.playerIndex destTeamIndex
      { hook := hook1
        threw := r.threw
        published := r.published
        teamsNow := r.teamsNow }

/-- A touch point of a touch event. -/
structure Touch where
  clientX : Int
  clientY : Int
deriving DecidableEq, Repr

/-- The handler `handleTouchEnd(e, currentTeamIndex)`, `Teams.js:224-321`. `changedTouch` is
`e.changedTouches[0]`; `hitTest x y` is the `data-team-index` of the drop zone that
`document.elementFromPoint(x, y)?.closest('[data-team-drop-zone]')` finds, if it finds one. -/
def handleTouchEnd (hook : Hook) (balancedTeams : Roster) (changedTouch : Option Touch)
    (hitTest : Int → Int → Option Nat) : Outcome :=
  -- clear the auto-scroll interval; remove the ghost element; remove every highlight
  let cleaned : Hook :=
    { hook with
      autoScrollInterval := none
      ghosts :=
        match hook.touchState.ghostElement with
        | some g => hook.ghosts.filter (fun x => x != g)
        | none => hook.ghosts
      highlighted := [] }
  -- setDraggedPlayer(null); setTouchState({ isDragging: false, startY: 0, ... })
  let reset : Hook := { cleaned with draggedPlayer := none, touchState := TouchState.initial }
  if !hook.touchState.isDragging then
    -- it was just a tap, not a drag
    { hook := reset, threw := none, published := [], teamsNow := balancedTeams }
  else
    match changedTouch with
    | none => { hook := reset, threw := none, published := [], teamsNow := balancedTeams }
    | some touch =>
      -- if (teamContainer && draggedPlayer)
      match hitTest touch.clientX touch.clientY, hook.draggedPlayer with
      | some destTeamIndex, some dragged =>
        -- if (sourceTeamIndex !== destTeamIndex)
        if dragged.teamIndex ≠ destTeamIndex then
          let r := moveBlock balancedTeams dragged.teamIndex dragged.playerIndex destTeamIndex
          match r.threw with
          | some err =>
            { hook := cleaned, threw := some err, published := r.published
              teamsNow := r.teamsNow }
          | none =>
            { hook := reset, threw := none, published := r.published
              teamsNow := r.teamsNow }
        else
          { hook := reset, threw := none, published := [], teamsNow := balancedTeams }
      | _, _ => { hook := reset, threw := none, published := [], teamsNow := balancedTeams }

/-! ## The other handlers of the hook -/

/-- The handler `handleDragStart(e, teamIndex, playerIndex, playerId)`, `Teams.js:20-34`. -/
def handleDragStart (hook : Hook) (teamIndex playerIndex : Nat) (playerId : Option String) :
    Hook :=
  { hook with
    draggedPlayer :=
      some { teamIndex := teamIndex, playerIndex := playerIndex, playerId := playerId } }

/-- The handler `handleDragEnd(e)`, `Teams.js:36-41`. -/
def handleDragEnd (hook : Hook) : Hook :=
  { hook with draggedPlayer := none }

/-- The handler `handleDragOver(e, teamIndex)`, `Teams.js:43-48`: the drop zone of `teamIndex`,
which is `e.currentTarget`, gets the class `drag-over-highlight`. -/
def handleDragOver (hook : Hook) (teamIndex : Nat) : Hook :=
  { hook with
    highlighted :=
      if teamIndex ∈ hook.highlighted then hook.highlighted
      else hook.highlighted ++ [teamIndex] }

/-- The handler `handleDragLeave(e)`, `Teams.js:50-52`, on the drop zone of `teamIndex`. -/
def handleDragLeave (hook : Hook) (teamIndex : Nat) : Hook :=
  { hook with highlighted := hook.highlighted.filter (fun z => z != teamIndex) }

/-- The handler `handleTouchStart(e, teamIndex, playerIndex, playerId)`, `Teams.js:83-102`;
`touch` is `e.touches[0]` and `element` is `e.currentTarget`. -/
def handleTouchStart (hook : Hook) (touch : Touch) (element : Nat)
    (teamIndex playerIndex : Nat) (playerId : Option String) : Hook :=
  { hook with
    touchState :=
      { isDragging := false
        startY := touch.clientY
        startX := touch.clientX
        currentElement := some element
        ghostElement := none
        teamIndex := some teamIndex
        playerIndex := some playerIndex
        playerId := playerId }
    draggedPlayer :=
      some { teamIndex := teamIndex, playerIndex := playerIndex, playerId := playerId } }

/-- The name of a node made by `cloneNode`: a number no ghost in the document carries. -/
def freshElement (ghosts : List Nat) : Nat :=
  ghosts.foldr max 0 + 1

/-- The handler `handleTouchMove(e, teamIndex)`, `Teams.js:104-222`. `touch0` is `e.touches[0]`,
`innerHeight` is `window.innerHeight` and `hitTest x y` is the index of the drop zone found by
`document.elementFromPoint(x, y)?.closest('[data-team-drop-zone]')`.

The test `deltaX > deltaY * 1.6` is taken exactly, as `10 * deltaX > 16 * deltaY`: for whole
pixel distances the double `deltaY * 1.6` is the exact product when that is a whole number, and
lies within rounding of a number that is at least a fifth away from every whole number otherwise.
The second block reads `touchState.isDragging` of the render the handler belongs to, so it does
not run in the call that starts the drag. The position styles of the ghost are not modelled. -/
def handleTouchMove (hook : Hook) (touch0 : Option Touch) (innerHeight : Int)
    (hitTest : Int → Int → Option Nat) : Hook :=
  let touchState := hook.touchState
  -- if (!touchState.currentElement || touchState.startY === 0) return
  if touchState.currentElement = none ∨ touchState.startY = 0 then hook
  else
    -- const touch = e.touches[0]; if (!touch) return
    match touch0 with
    | none => hook
    | some touch =>
      let deltaY := (touch.clientY - touchState.startY).natAbs
      let deltaX := (touch.clientX - touchState.startX).natAbs
      -- if (!touchState.isDragging && (deltaY > 15 || deltaX > 15)); the flag says `return`
      let first : Hook × Bool :=
        if touchState.isDragging = false ∧ (deltaY > 15 ∨ deltaX > 15) then
          if 10 * deltaX > 16 * deltaY then
            let ghostElement := freshElement hook.ghosts
            ({ hook with
                ghosts := hook.ghosts ++ [ghostElement]
                touchState :=
                  { touchState with isDragging := true, ghostElement := some ghostElement } },
              false)
          else
            ({ hook with
                autoScrollInterval := none
                touchState := TouchState.initial
                draggedPlayer := none },
              true)
        else (hook, false)
      if first.2 then first.1
      else if touchState.isDragging then
        -- continue dragging: re-arm the auto-scroll interval, move the highlight
        { first.1 with
          autoScrollInterval :=
            if touch.clientY < 80 then some (-8)
            else if touch.clientY > innerHeight - 80 then some 8
            else none
          highlighted :=
            match hitTest touch.clientX touch.clientY with
            | some teamContainer => [teamContainer]
            | none => [] }
      else first.1

/-- One touch-move event as the handler sees it. -/
structure MoveEvent where
  touch : Option Touch
  innerHeight : Int
  hitTest : Int → Int → Option Nat

/-- The hook after a sequence of touch-move events. -/
def runTouchMoves (hook : Hook) (events : List MoveEvent) : Hook :=
  events.foldl (fun h ev => handleTouchMove h ev.touch ev.innerHeight ev.hitTest) hook

/-- The hook before the first and after each of a sequence of touch-move events. -/
def touchTrace (hook : Hook) : List MoveEvent → List Hook
  | [] => [hook]
  | ev :: events =>
    hook :: touchTrace (handleTouchMove hook ev.touch ev.innerHeight ev.hitTest) events

/-- The events of a pointer drag between its drag-start and its drag-end, each on the drop zone
of a team index; a drop carries the roster of the render it happens in. -/
inductive PointerEvent where
  | dragOver (teamIndex : Nat)
  | dragLeave (teamIndex : Nat)
  | drop (teamIndex : Nat) (balancedTeams : Roster)

/-- The hook after one event of a pointer drag. -/
def pointerStep (hook : Hook) : PointerEvent → Hook
  | PointerEvent.dragOver z => handleDragOver hook z
  | PointerEvent.dragLeave z => handleDragLeave hook z
  | PointerEvent.drop z balancedTeams => (handleDrop hook balancedTeams z).hook

/-- The hook after a sequence of events of a pointer drag. -/
def runPointer (hook : Hook) (events : List PointerEvent) : Hook :=
  events.foldl pointerStep hook

/-- The event takes the highlight off the drop zone `z`: a drag-leave or a drop on it. -/
def PointerEvent.clears (z : Nat) : PointerEvent → Prop
  | PointerEvent.dragOver _ => False
  | PointerEvent.dragLeave y => y = z
  | PointerEvent.drop y _ => y = z

/-! ## Team naming (`Teams.js:399-418`) -/

/-- The function `getTeamName(index)` of a board showing `balancedTeams`. The first block returns
only when one of its three tests succeeds; otherwise control falls through to the next one. -/
def getTeamName (balancedTeams : Roster) (index : Nat) : String :=
  let totalTeams := balancedTeams.length
  let threeTeams : Option String :=
    if totalTeams = 3 then
      let colorIndex := index % 3
      if colorIndex = 0 then some "Red Team"
      else if colorIndex = 1 then some "Black Team"
      else if colorIndex = 2 then some "White Team"
      else none
    else none
  match threeTeams with
  | some teamName => teamName
  | none =>
    if totalTeams = 2 then
      if index = 0 then "Red Team" else "Black Team"
    else
      let isRedTeam := index % 2 = 0
      let teamNumber := index / 2 + 1
      let color := if isRedTeam then "Red" else "Black"
      color ++ " Team " ++ toString teamNumber

/-! ## Pagination (`Teams.js:420-431`) and the rendered drop zones (`Teams.js:459-481`) -/

/-- The test `balancedTeams.some(team => team.players.length > 12)`. -/
def hasLargeTeams (balancedTeams : Roster) : Bool :=
  balancedTeams.any fun team => decide (team.players.length > 12)

/-- The page size `hasLargeTeams ? 2 : 4`. -/
def teamsPerPage (balancedTeams : Roster) : Nat :=
  if hasLargeTeams balancedTeams then 2 else 4

/-- The value `Math.ceil(n / k)` for natural numbers `n` and `k` with `k` positive: the quotient
when the division is exact, one more otherwise. -/
def ceilDiv (n k : Nat) : Nat :=
  if n % k = 0 then n / k else n / k + 1

/-- The page count `Math.ceil(balancedTeams.length / teamsPerPage)`. -/
def totalPages (balancedTeams : Roster) : Nat :=
  ceilDiv balancedTeams.length (teamsPerPage balancedTeams)

/-- The array method `slice(start, stop)` for natural indices: the elements at the positions
from `start` on that are below `stop`. -/
def slice {α : Type} (l : List α) (start stop : Nat) : List α :=
  (l.take stop).drop start

/-- The pages `teamGroups` built by the loop of `Teams.js:426-431`. -/
def teamGroups (balancedTeams : Roster) : List (List Team) :=
  (List.range (totalPages balancedTeams)).map fun i =>
    let startIdx := i * teamsPerPage balancedTeams
    let endIdx := min (startIdx + teamsPerPage balancedTeams) balancedTeams.length
    slice balancedTeams startIdx endIdx

/-- The drop zones in document order, each with the `data-team-index` it is rendered with:
`actualIndex = pageIndex * teamsPerPage + index` (`Teams.js:459-473`). -/
def dropZones (balancedTeams : Roster) : List (Nat × Team) :=
  ((teamGroups balancedTeams).mapIdx fun pageIndex group =>
    group.mapIdx fun index team =>
      (pageIndex * teamsPerPage balancedTeams + index, team)).flatten

/-- The loop of `Teams.js:426-431` over any list, page size `k` and page count `m`. -/
def pagesOf {α : Type} (k m : Nat) (l : List α) : List (List α) :=
  (List.range m).map fun i => slice l (i * k) (min (i * k + k) l.length)

/-! ## Sample data (the players of `__tests__/components/Teams.test.js`) -/

/-- The test player `mockPlayer1`. -/
def alice : Player :=
  { _id := some "1", name := "Alice Smith", gameKnowledgeScore := 8, goalScoringScore := 7
    attackScore := 8, midfieldScore := 7, defenseScore := 8, fitnessScore := 8
    gender := Gender.female }

/-- The test player `mockPlayer2`. -/
def bob : Player :=
  { _id := some "2", name := "Bob Johnson", gameKnowledgeScore := 7, goalScoringScore := 8
    attackScore := 7, midfieldScore := 8, defenseScore := 7, fitnessScore := 8
    gender := Gender.male }

/-- The test player `mockPlayer3`. -/
def charlie : Player :=
  { _id := some "3", name := "Charlie Brown", gameKnowledgeScore := 6, goalScoringScore := 6
    attackScore := 6, midfieldScore := 6, defenseScore := 6, fitnessScore := 6
    gender := Gender.male }

/-- The test helper `createTeamWithStats(players)`, `Teams.test.js:106-108`. -/
def createTeamWithStats (players : List Player) : Team :=
  calculateTeamStats (zeroStats (players.map some))

/-- The roster of the drag-and-drop tests: Alice and Bob against Charlie. -/
def sampleRoster : Roster :=
  [createTeamWithStats [alice, bob], createTeamWithStats [charlie]]

/-- A hook in which a pointer drag of the player at `playerIndex` of team `teamIndex` is
recorded, as `handleDragStart` leaves it (`Teams.js:20-23`). -/
def draggingFrom (teamIndex playerIndex : Nat) (playerId : Option String) : Hook :=
  { Hook.idle with
    draggedPlayer :=
      some { teamIndex := teamIndex, playerIndex := playerIndex, playerId := playerId } }

/-- A roster in which one player is listed twice: Alice fills both slots of team 0. -/
def duplicateRoster : Roster :=
  [createTeamWithStats [alice, alice], createTeamWithStats []]

/-- The slot value `x` is listed by the team at index `d` of the roster and by no other team. -/
def PresentOnlyIn (teams : Roster) (x : Slot) (d : Nat) : Prop :=
  ∀ (i : Nat) (t : Team), teams[i]? = some t → (x ∈ t.players ↔ i = d)

/-- The aggregate fields of the team are the ones the aggregator computes from its player list
(the aggregator keeps the player list, so this says exactly that recomputing changes nothing). -/
def AggregatesInSync (t : Team) : Prop :=
  calculateTeamStats t = t

/-- The players of a player array: its slots that are not `undefined`, in order. -/
def definedPlayers (slots : List Slot) : List Player :=
  slots.filterMap id

/-- A hook in which a touch drag of the player at `playerIndex` of team `teamIndex` has been
confirmed: the session is recorded and `isDragging` is set, with ghost element 0 in the document. -/
def touchDraggingFrom (teamIndex playerIndex : Nat) (playerId : Option String) : Hook :=
  { draggedPlayer :=
      some { teamIndex := teamIndex, playerIndex := playerIndex, playerId := playerId }
    touchState :=
      { isDragging := true, startY := 100, startX := 100, currentElement := some 1
        ghostElement := some 0, teamIndex := some teamIndex, playerIndex := some playerIndex
        playerId := playerId }
    autoScrollInterval := none
    highlighted := []
    ghosts := [0] }

/-- A hook in which a touch on player 0 of team 0 has been recorded at the point (100, 100) and
no movement has been classified yet. -/
def pendingTouch : Hook :=
  handleTouchStart Hook.idle { clientX := 100, clientY := 100 } 1 0 0 (some "1")

/-- The bookkeeping a touch session keeps between its events: the ghosts in the document are
exactly the recorded ghost element, and while the session is not Dragging there is no ghost, no
highlight and no auto-scroll interval. -/
def TouchSessionInv (h : Hook) : Prop :=
  h.ghosts = h.touchState.ghostElement.toList ∧
    (h.touchState.isDragging = false →
      h.ghosts = [] ∧ h.highlighted = [] ∧ h.autoScrollInterval = none)

/-- The hook of a touch session started from the idle hook, after its touch-start on the player
at `playerIndex` of team `teamIndex` and the touch-move events `moves`. -/
def touchSession (start : Touch) (element teamIndex playerIndex : Nat)
    (playerId : Option String) (moves : List MoveEvent) : Hook :=
  runTouchMoves (handleTouchStart Hook.idle start element teamIndex playerIndex playerId) moves

/-- The hook of a pointer drag started from the idle hook, after its drag-start and the events
`events`, before its drag-end. -/
def pointerSession (teamIndex playerIndex : Nat) (playerId : Option String)
    (events : List PointerEvent) : Hook :=
  runPointer (handleDragStart Hook.idle teamIndex playerIndex playerId) events

/-- A touch-move that starts the drag of the touch recorded at (100, 100). -/
def moveRight : MoveEvent :=
  { touch := some { clientX := 130, clientY := 105 }, innerHeight := 800
    hitTest := fun _ _ => none }

/-- A touch-move near the top edge of the viewport, over the drop zone of team 1. -/
def moveOverTeamOne : MoveEvent :=
  { touch := some { clientX := 400, clientY := 20 }, innerHeight := 800
    hitTest := fun _ _ => some 1 }

/-! ## Password reset, step 2 (`components/ui/PasswordReset/PasswordResetStep2.js`) -/

/-- The `length` of a JavaScript string: its number of UTF-16 code units. -/
def jsLength (s : String) : Nat :=
  (s.toList.map fun c => if c.toNat < 65536 then 1 else 2).sum

/-- The test `s.match(/[A-Z]/)`: some character of `s` is an upper-case ASCII letter. -/
def matchesUpper (s : String) : Bool :=
  s.toList.any fun c => decide (65 ≤ c.toNat ∧ c.toNat ≤ 90)

/-- The test `s.match(/[a-z]/)`. -/
def matchesLower (s : String) : Bool :=
  s.toList.any fun c => decide (97 ≤ c.toNat ∧ c.toNat ≤ 122)

/-- The test `s.match(/[0-9]/)`. -/
def matchesDigit (s : String) : Bool :=
  s.toList.any fun c => decide (48 ≤ c.toNat ∧ c.toNat ≤ 57)

/-- The argument of `resetPasswordMutation.mutate`. -/
structure ResetPayload where
  username : String
  currentPassword : String
  newPassword : String
deriving DecidableEq, Repr

/-- What one submit of the step-2 form did: the `error` state afterwards and the calls of
`resetPasswordMutation.mutate`. -/
structure SubmitResult where
  error : String
  mutateCalls : List ResetPayload
deriving DecidableEq, Repr

/-- The handler `handleSubmit` of `PasswordResetStep2`, `PasswordResetStep2.js:41-79`; `username`
and `currentPassword` are the props received from step 1, the other two are the form state. -/
def PasswordResetStep2.handleSubmit (username currentPassword newPassword
    confirmNewPassword : String) : SubmitResult :=
  -- setError('')
  if newPassword ≠ confirmNewPassword then
    { error := "Passwords do not match", mutateCalls := [] }
  else if jsLength newPassword < 6 then
    { error := "Password must be at least 6 characters long", mutateCalls := [] }
  else if newPassword = currentPassword then
    { error := "New password cannot be the same as the current password", mutateCalls := [] }
  else if !matchesUpper newPassword || !matchesLower newPassword || !matchesDigit newPassword then
    { error :=
        "Password must include at least one uppercase letter, one lowercase letter, and one number"
      mutateCalls := [] }
  else
    { error := ""
      mutateCalls :=
        [{ username := username, currentPassword := currentPassword
           newPassword := newPassword }] }

/-! ## Password help (`components/ui/PasswordHelp/PasswordHelp.js`) -/

/-- What `fetch` and `response.json()` gave: the request failed, or a response arrived with its
`ok` flag and, when its body parsed, the `message` field of the body if it has one. -/
inductive FetchOutcome where
  | failed
  | response (ok : Bool) (body : Option (Option String))
deriving DecidableEq, Repr

/-- The state of the `PasswordHelp` form. -/
structure HelpState where
  username : String
  loading : Bool
  message : String
  error : String
deriving DecidableEq, Repr

/-- What one submit of the password-help form did: the state afterwards and the usernames posted
to `/api/send-temporary-password`. -/
structure HelpResult where
  state : HelpState
  posted : List String
deriving DecidableEq, Repr

/-- The handler `handleSubmit` of `PasswordHelp`, `PasswordHelp.js:13-51`; `outcome` is what the
call of `fetch` gives if it is made. -/
def PasswordHelp.handleSubmit (state : HelpState) (outcome : FetchOutcome) : HelpResult :=
  -- setLoading(true); setMessage(''); setError('')
  let cleared : HelpState := { state with loading := true, message := "", error := "" }
  if state.username = "" then
    { state := { cleared with error := "Please enter your email address", loading := false }
      posted := [] }
  else
    let after : HelpState :=
      match outcome with
      | FetchOutcome.failed =>
        { cleared with error := "Failed to process request. Please try again." }
      | FetchOutcome.response _ none =>
        { cleared with error := "Failed to process request. Please try again." }
      | FetchOutcome.response true (some _) =>
        { cleared with
          message :=
            "If an account exists with this email, a temporary password has been generated. Please contact your administrator to receive it."
          username := "" }
      | FetchOutcome.response false (some dataMessage) =>
        { cleared with
          error :=
            match dataMessage with
            | some m => if m = "" then "Username/email not found. Please try again." else m
            | none => "Username/email not found. Please try again." }
    -- finally: setLoading(false)
    { state := { after with loading := false }, posted := [state.username] }

/-! ## The API routes (`api/reset-password`, `api/verify-credentials`,
`api/send-temporary-password`) -/

/-- A document of the `User` collection, as far as the routes read it. -/
structure User where
  username : String
  email : Option String
  name : Option String
  password : String
deriving DecidableEq, Repr

/-- The body and status of a `NextResponse.json(...)` together with the CORS headers set on it. -/
structure ApiResponse where
  status : Nat
  success : Option Bool
  message : String
  error : Option String
  headers : List (String × String)
deriving DecidableEq, Repr

/-- The calls a route makes that reach outside it. -/
inductive Effect where
  | save (username password : String)
  | sendEmail (toEmail username temporaryPassword : String)
deriving DecidableEq, Repr

/-- The collaborators of the routes that are not part of them: whether `connectDB`, a query or
`user.save` rejects, `bcrypt.compare`, the hashing done by the pre-save hook of the `User` model,
`corsHeaders`, and what `sendTemporaryPasswordEmail` does (`none` when it resolves, the `message`
of the error when it rejects). Request bodies hold strings or miss a field. -/
structure Backend where
  connectFails : Bool
  findFails : Bool
  saveFails : Bool
  compare : String → String → Bool
  hash : String → String
  corsHeaders : Option String → List (String × String)
  emailError : Option String

/-- What one request did: the response, the collection afterwards and the outside calls in
order. -/
structure RouteResult where
  response : ApiResponse
  users : List User
  effects : List Effect
deriving DecidableEq, Repr

/-- The first document whose field satisfies the test, with its position in the collection. -/
def findOne (users : List User) (test : User → Bool) : Option (Nat × User) :=
  (users.enum.find? fun entry => test entry.2)

/-- A JavaScript value read from a request body is truthy: the field is there and is not the
empty string. -/
def truthy (field : Option String) : Bool :=
  match field with
  | some v => v != ""
  | none => false

/-- The body of a request to `api/reset-password`. -/
structure ResetBody where
  username : Option String
  currentPassword : Option String
  newPassword : Option String
deriving DecidableEq, Repr

/-- The response `NextResponse.json({ success, message }, { status })` with the CORS headers. -/
def jsonResponse (env : Backend) (origin : Option String) (status : Nat) (success : Bool)
    (message : String) : ApiResponse :=
  { status := status, success := some success, message := message, error := none
    headers := env.corsHeaders origin }

/-- The handler `POST` of `api/reset-password/route.js`; `body` is `none` when
`request.json()` rejects. -/
def resetPasswordPOST (env : Backend) (users : List User) (origin : Option String)
    (body : Option ResetBody) : RouteResult :=
  let serverError : RouteResult :=
    { response := jsonResponse env origin 500 false "Server error", users := users, effects := [] }
  if env.connectFails then serverError
  else
    match body with
    | none => serverError
    | some b =>
      -- if (!username || !currentPassword || !newPassword)
      if !truthy b.username || !truthy b.currentPassword || !truthy b.newPassword then
        { response := jsonResponse env origin 400 false "Missing required fields"
          users := users, effects := [] }
      else if env.findFails then serverError
      else
        match findOne users (fun u => some u.username == b.username) with
        | none =>
          { response := jsonResponse env origin 401 false "Invalid credentials"
            users := users, effects := [] }
        | some (position, user) =>
          if !env.compare (b.currentPassword.getD "") user.password then
            { response := jsonResponse env origin 401 false "Invalid credentials"
              users := users, effects := [] }
          else
            -- user.password = newPassword; await user.save()
            let newPassword := b.newPassword.getD ""
            if env.saveFails then
              { response := jsonResponse env origin 500 false "Server error"
                users := users, effects := [Effect.save user.username newPassword] }
            else
              { response := jsonResponse env origin 200 true "Password reset successfully"
                users := users.set position { user with password := env.hash newPassword }
                effects := [Effect.save user.username newPassword] }

/-- The body of a request to `api/verify-credentials`. -/
structure VerifyBody where
  username : Option String
  password : Option String
deriving DecidableEq, Repr

/-- The handler `POST` of `api/verify-credentials/route.js`. -/
def verifyCredentialsPOST (env : Backend) (users : List User) (origin : Option String)
    (body : Option VerifyBody) : RouteResult :=
  let serverError : RouteResult :=
    { response := jsonResponse env origin 500 false "Server error", users := users, effects := [] }
  if env.connectFails then serverError
  else
    match body with
    | none => serverError
    | some b =>
      if !truthy b.username || !truthy b.password then
        { response := jsonResponse env origin 400 false "Missing required fields"
          users := users, effects := [] }
      else if env.findFails then serverError
      else
        match findOne users (fun u => some u.username == b.username) with
        | none =>
          { response := jsonResponse env origin 401 false "Invalid credentials"
            users := users, effects := [] }
        | some (_, user) =>
          if !env.compare (b.password.getD "") user.password then
            { response := jsonResponse env origin 401 false "Invalid credentials"
              users := users, effects := [] }
          else
            { response := jsonResponse env origin 200 true "Credentials verified"
              users := users, effects := [] }

/-- The array and string method `substring(start, stop)` for natural indices. -/
def substring (s : String) (start stop : Nat) : String :=
  String.mk ((s.toList.take stop).drop start)

/-- The digit character of `d` in radix 36: `0` to `9`, then `a` to `z`. -/
def radixDigit (d : Nat) : Char :=
  Char.ofNat (if d < 10 then 48 + d else 87 + d)

/-- The digits of the base-36 expansion of the fraction `num / den`, at most `fuel` of them. -/
def fractionDigits : Nat → Nat → Nat → List Char
  | 0, _, _ => []
  | fuel + 1, num, den =>
    if num = 0 then []
    else radixDigit (num * 36 / den) :: fractionDigits fuel (num * 36 % den) den

/-- The string `x.toString(36)` for a number `x = mantissa / 2 ^ exponent` in `[0, 1)`, as every
value of `Math.random()` is: `0` for zero, else `0.` followed by the base-36 expansion of `x`,
which ends within `exponent` digits. An engine prints the shortest digit string that identifies
the double; that is this expansion whenever the expansion is short, as it is for 0 and for 1/2.
For a double with a long expansion the engine prints fewer digits than this definition gives, so
only the values at such short expansions, and bounds that hold for every string, are read off
it. -/
def toStringRadix36 (mantissa exponent : Nat) : String :=
  if mantissa = 0 then "0"
  else String.mk ('0' :: '.' :: fractionDigits exponent mantissa (2 ^ exponent))

/-- The function `generateTemporaryPassword` of `api/send-temporary-password/route.js:34-36`,
`Math.random().toString(36).substring(2, 15)`, for `Math.random()` returning
`mantissa / 2 ^ exponent`. -/
def generateTemporaryPassword (mantissa exponent : Nat) : String :=
  substring (toStringRadix36 mantissa exponent) 2 15

/-- The body of a request to `api/send-temporary-password`. -/
structure TemporaryBody where
  email : Option String
  username : Option String
deriving DecidableEq, Repr

/-- The document `User.findOne(query)` finds for `query = email ? { email } : { username }`. A
query on an absent username is taken to find nothing. -/
def findForTemporary (users : List User) (b : TemporaryBody) : Option (Nat × User) :=
  if truthy b.email then findOne users (fun u => u.email == b.email)
  else
    match b.username with
    | some name => findOne users (fun u => u.username == name)
    | none => none

/-- The second argument of the email call, `user.username || user.name || 'User'`. -/
def displayName (user : User) : String :=
  if user.username ≠ "" then user.username
  else
    match user.name with
    | some n => if n ≠ "" then n else "User"
    | none => "User"

/-- The handler `POST` of `api/send-temporary-password/route.js`; `Math.random()` returns
`mantissa / 2 ^ exponent`. -/
def sendTemporaryPasswordPOST (env : Backend) (users : List User) (origin : Option String)
    (body : Option TemporaryBody) (mantissa exponent : Nat) : RouteResult :=
  let serverError : RouteResult :=
    { response := jsonResponse env origin 500 false "Internal server error"
      users := users, effects := [] }
  if env.connectFails then serverError
  else
    match body with
    | none => serverError
    | some b =>
      if env.findFails then serverError
      else
        match findForTemporary users b with
        | none =>
          { response :=
              { status := 404, success := none, message := "User not found", error := none
                headers := env.corsHeaders origin }
            users := users, effects := [] }
        | some (position, user) =>
          -- user.password = temporaryPassword; await user.save()
          let temporaryPassword := generateTemporaryPassword mantissa exponent
          if env.saveFails then
            { response := jsonResponse env origin 500 false "Internal server error"
              users := users, effects := [Effect.save user.username temporaryPassword] }
          else
            let saved := users.set position { user with password := env.hash temporaryPassword }
            let calls :=
              [Effect.save user.username temporaryPassword,
                Effect.sendEmail user.username (displayName user) temporaryPassword]
            match env.emailError with
            | some emailErrorMessage =>
              { response :=
                  { status := 500, success := some false
                    message := "Password reset but failed to send email. Please contact support."
                    error := some emailErrorMessage
                    headers := env.corsHeaders origin }
                users := saved, effects := calls }
            | none =>
              { response :=
                  jsonResponse env origin 200 true "Temporary password sent to your email"
                users := saved, effects := calls }

/-- A backend in which everything works: the stored form of a password is the password with a
mark in front, and no CORS headers are set. -/
def workingBackend : Backend :=
  { connectFails := false, findFails := false, saveFails := false
    compare := fun plain stored => "#" ++ plain == stored
    hash := fun plain => "#" ++ plain
    corsHeaders := fun _ => []
    emailError := none }

/-- A collection of one user, whose password is `old`. -/
def sampleUsers : List User :=
  [{ username := "test@example.com", email := some "test@example.com", name := some "Test"
     password := "#old" }]

/-- The number a list of decimal digit characters writes. -/
def digitsValue (l : List Char) : Nat :=
  l.foldl (fun acc c => acc * 10 + (c.toNat - 48)) 0

/-! ## Properties of the aggregator -/

theorem foldl_accumulate_players (l : List Slot) (acc : Team) :
    (l.foldl accumulate acc).players = acc.players := by
  induction l generalizing acc with
  | nil => rfl
  | cons slot rest ih =>
    rw [List.foldl_cons, ih]
    cases slot <;> rfl

theorem calculateTeamStats_players (team : Team) :
    (calculateTeamStats team).players = team.players := by
  unfold calculateTeamStats
  rw [foldl_accumulate_players]
  rfl

theorem calculateTeamStats_congr {t u : Team} (h : t.players = u.players) :
    calculateTeamStats t = calculateTeamStats u := by
  unfold calculateTeamStats
  rw [h]

theorem calculateTeamStats_idem (team : Team) :
    calculateTeamStats (calculateTeamStats team) = calculateTeamStats team :=
  calculateTeamStats_congr (calculateTeamStats_players team)

theorem foldl_accumulate_totals (l : List Slot) (acc : Team) :
    (l.foldl accumulate acc).totalGameKnowledgeScore =
        acc.totalGameKnowledgeScore + ((definedPlayers l).map Player.gameKnowledgeScore).sum ∧
      (l.foldl accumulate acc).totalGoalScoringScore =
        acc.totalGoalScoringScore + ((definedPlayers l).map Player.goalScoringScore).sum ∧
      (l.foldl accumulate acc).totalAttackScore =
        acc.totalAttackScore + ((definedPlayers l).map Player.attackScore).sum ∧
      (l.foldl accumulate acc).totalMidfieldScore =
        acc.totalMidfieldScore + ((definedPlayers l).map Player.midfieldScore).sum ∧
      (l.foldl accumulate acc).totalDefenseScore =
        acc.totalDefenseScore + ((definedPlayers l).map Player.defenseScore).sum ∧
      (l.foldl accumulate acc).totalFitnessScore =
        acc.totalFitnessScore + ((definedPlayers l).map Player.fitnessScore).sum := by
  induction l generalizing acc with
  | nil => simp [definedPlayers]
  | cons slot rest ih =>
    obtain ⟨h1, h2, h3, h4, h5, h6⟩ := ih (accumulate acc slot)
    rw [List.foldl_cons, h1, h2, h3, h4, h5, h6]
    cases slot with
    | none => simp [definedPlayers, accumulate]
    | some pl => simp [definedPlayers, accumulate, add_assoc]

theorem definedPlayers_map_some (players : List Player) :
    definedPlayers (players.map some) = players := by
  induction players with
  | nil => rfl
  | cons pl rest _ => simp [definedPlayers]

/-! ## The move block on a valid pair of teams -/

theorem moveBlock_of_valid (balancedTeams : Roster) (s p d : Nat) (source dest : Team)
    (hs : balancedTeams[s]? = some source) (hd : balancedTeams[d]? = some dest) (hne : s ≠ d) :
    moveBlock balancedTeams s p d =
      { threw := none
        published :=
          [(balancedTeams.set s
              (calculateTeamStats { source with players := source.players.eraseIdx p })).set d
            (calculateTeamStats
              { dest with players := dest.players ++ [(source.players[p]?).join] })]
        teamsNow :=
          (balancedTeams.set s { source with players := source.players.eraseIdx p }).set d
            { dest with players := dest.players ++ [(source.players[p]?).join] } } := by
  have hslt : s < balancedTeams.length := (List.getElem?_eq_some.mp hs).1
  have hdlt : d < balancedTeams.length := (List.getElem?_eq_some.mp hd).1
  have hne2 : d ≠ s := fun h => hne h.symm
  simp only [moveBlock, hs, List.getElem?_set_ne hne, hd, List.getElem?_set_ne hne2,
    List.getElem?_set_self, List.length_set, hslt, hdlt, List.set_comm _ _ _ hne2, List.set_set]

theorem set_same_entry {α : Type} (l : List α) (i : Nat) (a : α) (h : l[i]? = some a) :
    l.set i a = l := by
  apply List.ext_getElem?
  intro j
  by_cases hji : i = j
  · subst hji
    rw [List.getElem?_set_self (List.getElem?_eq_some.mp h).1, h]
  · rw [List.getElem?_set_ne hji]

theorem moveBlock_source_missing (balancedTeams : Roster) (s p d : Nat)
    (hs : balancedTeams[s]? = none) :
    moveBlock balancedTeams s p d =
      { threw := some JsError.typeError, published := [], teamsNow := balancedTeams } := by
  simp only [moveBlock, hs]

theorem moveBlock_dest_missing (balancedTeams : Roster) (s p d : Nat) (source : Team)
    (hs : balancedTeams[s]? = some source) (hd : balancedTeams[d]? = none) :
    moveBlock balancedTeams s p d =
      { threw := some JsError.typeError
        published := []
        teamsNow :=
          balancedTeams.set s { source with players := source.players.eraseIdx p } } := by
  have hd2 : (balancedTeams.set s
      { source with players := source.players.eraseIdx p })[d]? = none := by
    rw [List.getElem?_eq_none_iff] at hd ⊢
    simpa using hd
  simp only [moveBlock, hs, hd2]

theorem handleDrop_of_session (hook : Hook) (balancedTeams : Roster) (dragged : DraggedPlayer)
    (d : Nat) (hdrag : hook.draggedPlayer = some dragged) (hne : dragged.teamIndex ≠ d) :
    (handleDrop hook balancedTeams d).threw =
        (moveBlock balancedTeams dragged.teamIndex dragged.playerIndex d).threw ∧
      (handleDrop hook balancedTeams d).published =
        (moveBlock balancedTeams dragged.teamIndex dragged.playerIndex d).published ∧
      (handleDrop hook balancedTeams d).teamsNow =
        (moveBlock balancedTeams dragged.teamIndex dragged.playerIndex d).teamsNow := by
  simp [handleDrop, hdrag, hne]

theorem moveBlock_published_in_sync (balancedTeams : Roster) (s p d : Nat) (hne : s ≠ d)
    (hinv : ∀ t ∈ balancedTeams, AggregatesInSync t) :
    ∀ r ∈ (moveBlock balancedTeams s p d).published, ∀ t ∈ r, AggregatesInSync t := by
  cases hs : balancedTeams[s]? with
  | none => rw [moveBlock_source_missing _ _ _ _ hs]; simp
  | some source =>
    cases hd : balancedTeams[d]? with
    | none => rw [moveBlock_dest_missing _ _ _ _ source hs hd]; simp
    | some dest =>
      rw [moveBlock_of_valid _ _ _ _ source dest hs hd hne]
      intro r hr t ht
      rw [List.mem_singleton] at hr
      subst hr
      rcases List.mem_or_eq_of_mem_set ht with h | h
      · rcases List.mem_or_eq_of_mem_set h with h2 | h2
        · exact hinv t h2
        · subst h2
          exact calculateTeamStats_idem _
      · subst h
        exact calculateTeamStats_idem _

theorem handleTouchEnd_published (hook : Hook) (balancedTeams : Roster)
    (changedTouch : Option Touch) (hitTest : Int → Int → Option Nat) :
    (handleTouchEnd hook balancedTeams changedTouch hitTest).published = [] ∨
      ∃ (dragged : DraggedPlayer) (d : Nat), hook.draggedPlayer = some dragged ∧
        dragged.teamIndex ≠ d ∧
        (handleTouchEnd hook balancedTeams changedTouch hitTest).published =
          (moveBlock balancedTeams dragged.teamIndex dragged.playerIndex d).published := by
  cases hdragging : hook.touchState.isDragging with
  | false => left; simp [handleTouchEnd, hdragging]
  | true =>
    cases changedTouch with
    | none => left; simp [handleTouchEnd, hdragging]
    | some touch =>
      cases hhit : hitTest touch.clientX touch.clientY with
      | none => left; simp [handleTouchEnd, hdragging, hhit]
      | some d =>
        cases hdrag : hook.draggedPlayer with
        | none => left; simp [handleTouchEnd, hdragging, hhit, hdrag]
        | some dragged =>
          by_cases hne : dragged.teamIndex = d
          · left; simp [handleTouchEnd, hdragging, hhit, hdrag, hne]
          · right
            refine ⟨dragged, d, rfl, hne, ?_⟩
            simp only [handleTouchEnd, hdragging, hhit, hdrag]
            cases hthrew : (moveBlock balancedTeams dragged.teamIndex dragged.playerIndex d).threw <;>
              simp [hne, hthrew]

theorem handleDrop_valid_entries (hook : Hook) (balancedTeams : Roster)
    (dragged : DraggedPlayer) (destTeamIndex : Nat) (source dest : Team) (moved : Slot)
    (hdrag : hook.draggedPlayer = some dragged)
    (hne : dragged.teamIndex ≠ destTeamIndex)
    (hsrc : balancedTeams[dragged.teamIndex]? = some source)
    (hdst : balancedTeams[destTeamIndex]? = some dest)
    (hpl : source.players[dragged.playerIndex]? = some moved) :
    ∃ newTeams : Roster,
      (handleDrop hook balancedTeams destTeamIndex).published = [newTeams] ∧
      newTeams[dragged.teamIndex]? =
        some (calculateTeamStats
          { source with players := source.players.eraseIdx dragged.playerIndex }) ∧
      newTeams[destTeamIndex]? =
        some (calculateTeamStats { dest with players := dest.players ++ [moved] }) ∧
      ∀ i : Nat, i ≠ dragged.teamIndex → i ≠ destTeamIndex →
        newTeams[i]? = balancedTeams[i]? := by
  obtain ⟨-, hpub, -⟩ := handleDrop_of_session hook balancedTeams dragged destTeamIndex hdrag hne
  have hmove := moveBlock_of_valid balancedTeams dragged.teamIndex dragged.playerIndex
    destTeamIndex source dest hsrc hdst hne
  have hslt : dragged.teamIndex < balancedTeams.length := (List.getElem?_eq_some.mp hsrc).1
  have hdlt : destTeamIndex < balancedTeams.length := (List.getElem?_eq_some.mp hdst).1
  have hne2 : destTeamIndex ≠ dragged.teamIndex := fun h => hne h.symm
  rw [hmove] at hpub
  refine ⟨_, hpub, ?_, ?_, ?_⟩
  · rw [List.getElem?_set_ne hne2, List.getElem?_set_self hslt]
  · rw [List.getElem?_set_self (by simpa using hdlt)]
    simp [hpl]
  · intro i his hid
    rw [List.getElem?_set_ne (fun h => hid h.symm), List.getElem?_set_ne (fun h => his h.symm)]

/-! ## The pointer drop: a valid move -/

/-- C1: for a recorded drag of the player at index `p` of team `s` dropped on team `d`, with `s`
and `d` valid team indices, `s ≠ d` and `p` a valid index into the player list of team `s`,
`handleDrop` returns normally and calls `setBalancedTeams` exactly once, with a roster in which the
player list of team `s` is the original list without its element at position `p` (the elements
before `p` followed by the elements after `p`) and the player list of team `d` is the original list
followed by the removed player. -/
theorem handleDrop_publishes_move (hook : Hook) (balancedTeams : Roster)
    (dragged : DraggedPlayer) (destTeamIndex : Nat) (source dest : Team) (moved : Slot)
    (hdrag : hook.draggedPlayer = some dragged)
    (hne : dragged.teamIndex ≠ destTeamIndex)
    (hsrc : balancedTeams[dragged.teamIndex]? = some source)
    (hdst : balancedTeams[destTeamIndex]? = some dest)
    (hpl : source.players[dragged.playerIndex]? = some moved) :
    ∃ newTeams : Roster,
      (handleDrop hook balancedTeams destTeamIndex).published = [newTeams] ∧
      (handleDrop hook balancedTeams destTeamIndex).threw = none ∧
      newTeams[dragged.teamIndex]?.map Team.players =
        some (source.players.take dragged.playerIndex ++
          source.players.drop (dragged.playerIndex + 1)) ∧
      newTeams[destTeamIndex]?.map Team.players = some (dest.players ++ [moved]) := by
  obtain ⟨hthrew, hpub, -⟩ := handleDrop_of_session hook balancedTeams dragged destTeamIndex hdrag hne
  have hmove := moveBlock_of_valid balancedTeams dragged.teamIndex dragged.playerIndex
    destTeamIndex source dest hsrc hdst hne
  have hslt : dragged.teamIndex < balancedTeams.length := (List.getElem?_eq_some.mp hsrc).1
  have hdlt : destTeamIndex < balancedTeams.length := (List.getElem?_eq_some.mp hdst).1
  have hne2 : destTeamIndex ≠ dragged.teamIndex := fun h => hne h.symm
  rw [hmove] at hthrew hpub
  refine ⟨_, hpub, hthrew, ?_, ?_⟩
  · rw [List.getElem?_set_ne hne2, List.getElem?_set_self hslt]
    simp [calculateTeamStats_players, List.eraseIdx_eq_take_drop_succ]
  · rw [List.getElem?_set_self (by simpa using hdlt)]
    simp [calculateTeamStats_players, hpl]

/-- Witness of C1 on the test roster: Alice, player 0 of team 0, is dropped on team 1; the
published roster lists Bob in team 0 and Charlie, Alice in team 1. -/
theorem handleDrop_publishes_move_witness :
    sampleRoster[0]? = some (createTeamWithStats [alice, bob]) ∧
    sampleRoster[1]? = some (createTeamWithStats [charlie]) ∧
    ∃ newTeams : Roster,
      (handleDrop (draggingFrom 0 0 (some "1")) sampleRoster 1).published = [newTeams] ∧
      (handleDrop (draggingFrom 0 0 (some "1")) sampleRoster 1).threw = none ∧
      newTeams[0]?.map Team.players = some [some bob] ∧
      newTeams[1]?.map Team.players = some [some charlie, some alice] :=
  ⟨rfl, rfl,
    handleDrop_publishes_move (draggingFrom 0 0 (some "1")) sampleRoster
      { teamIndex := 0, playerIndex := 0, playerId := some "1" } 1
      (createTeamWithStats [alice, bob]) (createTeamWithStats [charlie]) (some alice)
      rfl (by decide) rfl rfl rfl⟩

/-- C2: for a valid move (`s ≠ d`, both team indices in range, `p` a valid player index), the
entries at indices `s` and `d` of the roster `handleDrop` publishes are `calculateTeamStats` of the
source team after the removal and `calculateTeamStats` of the destination team after the append,
and every other entry is the entry of the input roster itself, not a recomputed one. -/
theorem handleDrop_recomputes_source_and_dest (hook : Hook) (balancedTeams : Roster)
    (dragged : DraggedPlayer) (destTeamIndex : Nat) (source dest : Team) (moved : Slot)
    (hdrag : hook.draggedPlayer = some dragged)
    (hne : dragged.teamIndex ≠ destTeamIndex)
    (hsrc : balancedTeams[dragged.teamIndex]? = some source)
    (hdst : balancedTeams[destTeamIndex]? = some dest)
    (hpl : source.players[dragged.playerIndex]? = some moved) :
    ∃ newTeams : Roster,
      (handleDrop hook balancedTeams destTeamIndex).published = [newTeams] ∧
      newTeams[dragged.teamIndex]? =
        some (calculateTeamStats
          { source with players := source.players.eraseIdx dragged.playerIndex }) ∧
      newTeams[destTeamIndex]? =
        some (calculateTeamStats { dest with players := dest.players ++ [moved] }) ∧
      ∀ i : Nat, i ≠ dragged.teamIndex → i ≠ destTeamIndex →
        newTeams[i]? = balancedTeams[i]? :=
  handleDrop_valid_entries hook balancedTeams dragged destTeamIndex source dest moved
    hdrag hne hsrc hdst hpl

/-- Witness of C2 on the test roster: Alice moves from team 0 to team 1. -/
theorem handleDrop_recomputes_source_and_dest_witness :
    ∃ newTeams : Roster,
      (handleDrop (draggingFrom 0 0 (some "1")) sampleRoster 1).published = [newTeams] ∧
      newTeams[0]? =
        some (calculateTeamStats
          { createTeamWithStats [alice, bob] with players := [some bob] }) ∧
      newTeams[1]? =
        some (calculateTeamStats
          { createTeamWithStats [charlie] with players := [some charlie, some alice] }) ∧
      ∀ i : Nat, i ≠ 0 → i ≠ 1 → newTeams[i]? = sampleRoster[i]? :=
  handleDrop_recomputes_source_and_dest (draggingFrom 0 0 (some "1")) sampleRoster
    { teamIndex := 0, playerIndex := 0, playerId := some "1" } 1
    (createTeamWithStats [alice, bob]) (createTeamWithStats [charlie]) (some alice)
    rfl (by decide) rfl rfl rfl

/-- C3: for a valid move from team `s` to team `d`, the roster `handleDrop` publishes has as many
teams as the input roster, and its team at every index other than `s` and `d` is the team of the
input roster at that index, players and aggregate fields alike. -/
theorem handleDrop_frame (hook : Hook) (balancedTeams : Roster)
    (dragged : DraggedPlayer) (destTeamIndex : Nat) (source dest : Team) (moved : Slot)
    (hdrag : hook.draggedPlayer = some dragged)
    (hne : dragged.teamIndex ≠ destTeamIndex)
    (hsrc : balancedTeams[dragged.teamIndex]? = some source)
    (hdst : balancedTeams[destTeamIndex]? = some dest)
    (_hpl : source.players[dragged.playerIndex]? = some moved) :
    ∃ newTeams : Roster,
      (handleDrop hook balancedTeams destTeamIndex).published = [newTeams] ∧
      newTeams.length = balancedTeams.length ∧
      ∀ i : Nat, i ≠ dragged.teamIndex → i ≠ destTeamIndex →
        newTeams[i]? = balancedTeams[i]? := by
  obtain ⟨-, hpub, -⟩ := handleDrop_of_session hook balancedTeams dragged destTeamIndex hdrag hne
  have hmove := moveBlock_of_valid balancedTeams dragged.teamIndex dragged.playerIndex
    destTeamIndex source dest hsrc hdst hne
  rw [hmove] at hpub
  refine ⟨_, hpub, ?_, ?_⟩
  · simp
  · intro i his hid
    rw [List.getElem?_set_ne (fun h => hid h.symm), List.getElem?_set_ne (fun h => his h.symm)]

/-- Witness of C3 on a roster of three teams, the third one holding stale aggregate fields. -/
theorem handleDrop_frame_witness :
    ∃ newTeams : Roster,
      (handleDrop (draggingFrom 0 1 none)
        (sampleRoster ++ [{ zeroStats [some alice] with totalScore := 99 }]) 1).published =
          [newTeams] ∧
      newTeams.length = (sampleRoster ++ [{ zeroStats [some alice] with totalScore := 99 }]).length ∧
      ∀ i : Nat, i ≠ 0 → i ≠ 1 →
        newTeams[i]? = (sampleRoster ++ [{ zeroStats [some alice] with totalScore := 99 }])[i]? :=
  handleDrop_frame (draggingFrom 0 1 none)
    (sampleRoster ++ [{ zeroStats [some alice] with totalScore := 99 }])
    { teamIndex := 0, playerIndex := 1, playerId := none } 1
    (createTeamWithStats [alice, bob]) (createTeamWithStats [charlie]) (some bob)
    rfl (by decide) rfl rfl rfl

/-- C4, counterexample: in a roster that lists Alice twice in team 0, moving the Alice at index 0
to team 1 publishes a roster in which Alice is present in team 0 and in team 1. -/
theorem handleDrop_moved_player_in_two_teams :
    ∃ newTeams : Roster,
      (handleDrop (draggingFrom 0 0 (some "1")) duplicateRoster 1).published = [newTeams] ∧
      ¬ PresentOnlyIn newTeams (some alice) 1 := by
  refine ⟨_, rfl, fun h => ?_⟩
  have h0 := (h 0 _ rfl).mp (by decide)
  exact absurd h0 (by decide)

/-- C4, amended: for every roster and every valid move of a player from team A to a different
team B, where the moved player is listed nowhere in the roster but at the dragged position, in the
roster `handleDrop` publishes the moved player is present in exactly one team, namely B; the player
count of B is one more than before and that of A is one less (the two counts hold for every roster,
whether or not the player is listed once). -/
theorem handleDrop_moved_player_only_in_dest (hook : Hook) (balancedTeams : Roster)
    (dragged : DraggedPlayer) (destTeamIndex : Nat) (source dest : Team) (moved : Slot)
    (hdrag : hook.draggedPlayer = some dragged)
    (hne : dragged.teamIndex ≠ destTeamIndex)
    (hsrc : balancedTeams[dragged.teamIndex]? = some source)
    (hdst : balancedTeams[destTeamIndex]? = some dest)
    (hpl : source.players[dragged.playerIndex]? = some moved)
    (honce : ∀ (i j : Nat) (t : Team), balancedTeams[i]? = some t →
      t.players[j]? = some moved → i = dragged.teamIndex ∧ j = dragged.playerIndex) :
    ∃ (newTeams : Roster) (newSource newDest : Team),
      (handleDrop hook balancedTeams destTeamIndex).published = [newTeams] ∧
      newTeams[dragged.teamIndex]? = some newSource ∧
      newTeams[destTeamIndex]? = some newDest ∧
      PresentOnlyIn newTeams moved destTeamIndex ∧
      newDest.players.length = dest.players.length + 1 ∧
      newSource.players.length + 1 = source.players.length := by
  obtain ⟨newTeams, hpub, hs, hd, hframe⟩ :=
    handleDrop_valid_entries hook balancedTeams dragged destTeamIndex source dest
      moved hdrag hne hsrc hdst hpl
  have hplt : dragged.playerIndex < source.players.length := (List.getElem?_eq_some.mp hpl).1
  refine ⟨newTeams, _, _, hpub, hs, hd, ?_, ?_, ?_⟩
  · intro i t hit
    by_cases hid : i = destTeamIndex
    · subst hid
      rw [hd] at hit
      cases hit
      simp [calculateTeamStats_players]
    · by_cases his : i = dragged.teamIndex
      · subst his
        rw [hs] at hit
        cases hit
        simp only [calculateTeamStats_players, hid, iff_false]
        intro hmem
        obtain ⟨j, hj, hjm⟩ := List.mem_eraseIdx_iff_getElem?.mp hmem
        exact hj (honce _ j source hsrc hjm).2
      · rw [hframe i his hid] at hit
        simp only [hid, iff_false]
        intro hmem
        obtain ⟨j, hjm⟩ := List.mem_iff_getElem?.mp hmem
        exact his (honce i j t hit hjm).1
  · simp [calculateTeamStats_players]
  · simp only [calculateTeamStats_players]
    rw [List.length_eraseIdx_of_lt hplt]
    omega

/-- Witness of the amended C4 on the test roster, where every player is listed once: Bob, player 1
of team 0, is dropped on team 1. -/
theorem handleDrop_moved_player_only_in_dest_witness :
    ∃ (newTeams : Roster) (newSource newDest : Team),
      (handleDrop (draggingFrom 0 1 (some "2")) sampleRoster 1).published = [newTeams] ∧
      newTeams[0]? = some newSource ∧
      newTeams[1]? = some newDest ∧
      PresentOnlyIn newTeams (some bob) 1 ∧
      newDest.players.length = (createTeamWithStats [charlie]).players.length + 1 ∧
      newSource.players.length + 1 = (createTeamWithStats [alice, bob]).players.length :=
  handleDrop_moved_player_only_in_dest (draggingFrom 0 1 (some "2")) sampleRoster
    { teamIndex := 0, playerIndex := 1, playerId := some "2" } 1
    (createTeamWithStats [alice, bob]) (createTeamWithStats [charlie]) (some bob)
    rfl (by decide) rfl rfl rfl
    (by
      intro i j t hit hjm
      match i, j with
      | 0, 0 => cases hit; exact absurd hjm (by decide)
      | 0, 1 => exact ⟨rfl, rfl⟩
      | 0, (j + 2) =>
        cases hit
        change [some alice, some bob][j + 2]? = _ at hjm
        simp at hjm
      | 1, 0 => cases hit; exact absurd hjm (by decide)
      | 1, (j + 1) =>
        cases hit
        change [some charlie][j + 1]? = _ at hjm
        simp at hjm
      | (i + 2), _ => exact absurd hit (by simp [sampleRoster]))

/-! ## The pointer drop: same team, out-of-range indices, missing session -/

/-- C5: for every roster and every recorded drag whose source team index equals the destination
index, `handleDrop` is a no-op: it returns normally, `setBalancedTeams` is not called, and every
team of the roster, player list and aggregate fields, is exactly as before. -/
theorem handleDrop_same_team_noop (hook : Hook) (balancedTeams : Roster)
    (dragged : DraggedPlayer) (destTeamIndex : Nat)
    (hdrag : hook.draggedPlayer = some dragged)
    (heq : dragged.teamIndex = destTeamIndex) :
    (handleDrop hook balancedTeams destTeamIndex).threw = none ∧
      (handleDrop hook balancedTeams destTeamIndex).published = [] ∧
      (handleDrop hook balancedTeams destTeamIndex).teamsNow = balancedTeams := by
  simp [handleDrop, hdrag, heq]

/-- Witness of C5 on the test roster: Alice, player 0 of team 0, is dropped on team 0. -/
theorem handleDrop_same_team_noop_witness :
    (handleDrop (draggingFrom 0 0 (some "1")) sampleRoster 0).threw = none ∧
      (handleDrop (draggingFrom 0 0 (some "1")) sampleRoster 0).published = [] ∧
      (handleDrop (draggingFrom 0 0 (some "1")) sampleRoster 0).teamsNow = sampleRoster :=
  handleDrop_same_team_noop (draggingFrom 0 0 (some "1")) sampleRoster
    { teamIndex := 0, playerIndex := 0, playerId := some "1" } 0 rfl rfl

/-- C6, counterexample: Alice, player 0 of team 0 of the test roster, is dropped on team index 5,
which is out of range. `handleDrop` throws a `TypeError`, and the player list of team 0, which was
Alice, Bob, is left holding Bob alone. -/
theorem handleDrop_missing_dest_throws :
    (handleDrop (draggingFrom 0 0 (some "1")) sampleRoster 5).threw = some JsError.typeError ∧
      sampleRoster.map Team.players = [[some alice, some bob], [some charlie]] ∧
      (handleDrop (draggingFrom 0 0 (some "1")) sampleRoster 5).teamsNow.map Team.players =
        [[some bob], [some charlie]] := by
  decide

/-- C6, amended: for every roster and every recorded drag with source index `s` different from
the destination index `d`: if `s` or `d` is out of range, `handleDrop` throws a `TypeError` and
does not call `setBalancedTeams`; the teams are left exactly as they were when `s` is out of range,
and when `d` and the player index `p` are both out of range; when `d` alone is out of range the
player at `p` has been removed from the player list of team `s`; when `s` and `d` are in range and
`p` is out of range, no player is removed from any list and one `undefined` entry is appended to
the player list of team `d`. -/
theorem handleDrop_out_of_range (hook : Hook) (balancedTeams : Roster)
    (dragged : DraggedPlayer) (destTeamIndex : Nat)
    (hdrag : hook.draggedPlayer = some dragged)
    (hne : dragged.teamIndex ≠ destTeamIndex) :
    (balancedTeams.length ≤ dragged.teamIndex ∨ balancedTeams.length ≤ destTeamIndex →
        (handleDrop hook balancedTeams destTeamIndex).threw = some JsError.typeError ∧
        (handleDrop hook balancedTeams destTeamIndex).published = []) ∧
      (balancedTeams.length ≤ dragged.teamIndex →
        (handleDrop hook balancedTeams destTeamIndex).teamsNow = balancedTeams) ∧
      (∀ source : Team, balancedTeams[dragged.teamIndex]? = some source →
        balancedTeams.length ≤ destTeamIndex →
        source.players.length ≤ dragged.playerIndex →
        (handleDrop hook balancedTeams destTeamIndex).teamsNow = balancedTeams) ∧
      (∀ source : Team, balancedTeams[dragged.teamIndex]? = some source →
        balancedTeams.length ≤ destTeamIndex →
        dragged.playerIndex < source.players.length →
        (handleDrop hook balancedTeams destTeamIndex).teamsNow =
          balancedTeams.set dragged.teamIndex
            { source with players := source.players.eraseIdx dragged.playerIndex }) ∧
      (∀ source dest : Team, balancedTeams[dragged.teamIndex]? = some source →
        balancedTeams[destTeamIndex]? = some dest →
        source.players.length ≤ dragged.playerIndex →
        (handleDrop hook balancedTeams destTeamIndex).teamsNow =
          balancedTeams.set destTeamIndex { dest with players := dest.players ++ [none] }) := by
  obtain ⟨hthrew, hpub, hnow⟩ :=
    handleDrop_of_session hook balancedTeams dragged destTeamIndex hdrag hne
  rw [hthrew, hpub, hnow]
  refine ⟨?_, ?_, ?_, ?_, ?_⟩
  · intro hout
    cases hsrc : balancedTeams[dragged.teamIndex]? with
    | none => rw [moveBlock_source_missing _ _ _ _ hsrc]; exact ⟨rfl, rfl⟩
    | some source =>
      have hd : balancedTeams[destTeamIndex]? = none := by
        rcases hout with h | h
        · rw [List.getElem?_eq_none_iff.mpr h] at hsrc
          cases hsrc
        · exact List.getElem?_eq_none_iff.mpr h
      rw [moveBlock_dest_missing _ _ _ _ source hsrc hd]
      exact ⟨rfl, rfl⟩
  · intro hs
    rw [moveBlock_source_missing _ _ _ _ (List.getElem?_eq_none_iff.mpr hs)]
  · intro source hsrc hd hp
    rw [moveBlock_dest_missing _ _ _ _ source hsrc (List.getElem?_eq_none_iff.mpr hd)]
    simp only [List.eraseIdx_of_length_le hp]
    exact set_same_entry _ _ _ hsrc
  · intro source hsrc hd _
    rw [moveBlock_dest_missing _ _ _ _ source hsrc (List.getElem?_eq_none_iff.mpr hd)]
  · intro source dest hsrc hdst hp
    rw [moveBlock_of_valid _ _ _ _ source dest hsrc hdst hne]
    simp only [List.eraseIdx_of_length_le hp, List.getElem?_eq_none_iff.mpr hp, Option.join]
    rw [set_same_entry _ _ _ hsrc]
    rfl

/-- Witness of the amended C6 on the test roster: the drag of player 7 of team 0, a player index
out of range, is dropped on team 1. -/
theorem handleDrop_out_of_range_witness :
    (handleDrop (draggingFrom 0 7 none) sampleRoster 1).teamsNow.map Team.players =
      [[some alice, some bob], [some charlie, none]] := by
  have h := (handleDrop_out_of_range (draggingFrom 0 7 none) sampleRoster
    { teamIndex := 0, playerIndex := 7, playerId := none } 1 rfl (by decide)).2.2.2.2
      (createTeamWithStats [alice, bob]) (createTeamWithStats [charlie]) rfl rfl (by decide)
  rw [h]
  decide

/-- C7, the code at the failing input: a drop on team 1 of the test roster while no drag is
recorded ends in a `TypeError` (the destructuring of `null` at `Teams.js:59`); nothing is
published and the roster is untouched. -/
theorem handleDrop_without_session_throws :
    (handleDrop Hook.idle sampleRoster 1).threw = some JsError.typeError ∧
      (handleDrop Hook.idle sampleRoster 1).published = [] ∧
      (handleDrop Hook.idle sampleRoster 1).teamsNow = sampleRoster ∧
      (handleDrop Hook.idle sampleRoster 1).hook = Hook.idle := by
  decide

/-! ## Aggregates stay in sync -/

/-- C8: if every team of the roster has aggregate fields equal to those `calculateTeamStats`
computes from its player list, then every team of every roster published by `handleDrop`, and of
every roster published by the move of `handleTouchEnd`, has aggregate fields equal to those
computed from its player list in the published roster. -/
theorem published_aggregates_in_sync (hook touchHook : Hook) (balancedTeams : Roster)
    (destTeamIndex : Nat) (changedTouch : Option Touch) (hitTest : Int → Int → Option Nat)
    (hinv : ∀ t ∈ balancedTeams, AggregatesInSync t) :
    (∀ r ∈ (handleDrop hook balancedTeams destTeamIndex).published,
        ∀ t ∈ r, AggregatesInSync t) ∧
      (∀ r ∈ (handleTouchEnd touchHook balancedTeams changedTouch hitTest).published,
        ∀ t ∈ r, AggregatesInSync t) := by
  constructor
  · cases hdrag : hook.draggedPlayer with
    | none => simp [handleDrop, hdrag]
    | some dragged =>
      by_cases heq : dragged.teamIndex = destTeamIndex
      · simp [handleDrop, hdrag, heq]
      · rw [(handleDrop_of_session hook balancedTeams dragged destTeamIndex hdrag heq).2.1]
        exact moveBlock_published_in_sync _ _ _ _ heq hinv
  · rcases handleTouchEnd_published touchHook balancedTeams changedTouch hitTest with h | h
    · rw [h]
      simp
    · obtain ⟨dragged, d, -, hne, hpub⟩ := h
      rw [hpub]
      exact moveBlock_published_in_sync _ _ _ _ hne hinv

/-- Witness of C8 on the test roster, whose teams come out of `calculateTeamStats`: the pointer
drop of Alice on team 1 and the touch drag of Alice ended over team 1 both publish a roster, and
each team of it is in sync. -/
theorem published_aggregates_in_sync_witness :
    (∀ t ∈ sampleRoster, AggregatesInSync t) ∧
      (handleDrop (draggingFrom 0 0 (some "1")) sampleRoster 1).published.length = 1 ∧
      (handleTouchEnd (touchDraggingFrom 0 0 (some "1")) sampleRoster
        (some { clientX := 400, clientY := 120 }) (fun _ _ => some 1)).published.length = 1 ∧
      (∀ r ∈ (handleDrop (draggingFrom 0 0 (some "1")) sampleRoster 1).published,
        ∀ t ∈ r, AggregatesInSync t) ∧
      (∀ r ∈ (handleTouchEnd (touchDraggingFrom 0 0 (some "1")) sampleRoster
          (some { clientX := 400, clientY := 120 }) (fun _ _ => some 1)).published,
        ∀ t ∈ r, AggregatesInSync t) :=
  have hinv : ∀ t ∈ sampleRoster, AggregatesInSync t := by
    intro t ht
    simp only [sampleRoster, List.mem_cons, List.mem_singleton, List.not_mem_nil, or_false] at ht
    rcases ht with h | h <;> subst h <;> exact calculateTeamStats_idem _
  ⟨hinv, by decide, by decide,
    published_aggregates_in_sync (draggingFrom 0 0 (some "1"))
      (touchDraggingFrom 0 0 (some "1")) sampleRoster 1
      (some { clientX := 400, clientY := 120 }) (fun _ _ => some 1) hinv⟩

/-! ## The aggregator -/

/-- C9: for every team, whatever its list of players, the empty list included, each
per-category total produced by `calculateTeamStats` is the sum over the players of the team of the
corresponding score field. -/
theorem calculateTeamStats_totals (team : Team) :
    (calculateTeamStats team).totalGameKnowledgeScore =
        ((definedPlayers team.players).map Player.gameKnowledgeScore).sum ∧
      (calculateTeamStats team).totalGoalScoringScore =
        ((definedPlayers team.players).map Player.goalScoringScore).sum ∧
      (calculateTeamStats team).totalAttackScore =
        ((definedPlayers team.players).map Player.attackScore).sum ∧
      (calculateTeamStats team).totalMidfieldScore =
        ((definedPlayers team.players).map Player.midfieldScore).sum ∧
      (calculateTeamStats team).totalDefenseScore =
        ((definedPlayers team.players).map Player.defenseScore).sum ∧
      (calculateTeamStats team).totalFitnessScore =
        ((definedPlayers team.players).map Player.fitnessScore).sum := by
  obtain ⟨h1, h2, h3, h4, h5, h6⟩ :=
    foldl_accumulate_totals team.players (zeroStats team.players)
  unfold calculateTeamStats
  rw [h1, h2, h3, h4, h5, h6]
  simp [zeroStats]

/-- Two worked examples: attack scores 8 and 7 give the team attack total 15, and a team without
players has every total and every count 0. -/
theorem calculateTeamStats_examples :
    (createTeamWithStats [alice, bob]).totalAttackScore = 15 ∧
      (createTeamWithStats []).totalAttackScore = 0 ∧
      (createTeamWithStats []).totalScore = 0 ∧
      (createTeamWithStats []).genderCount = { male := 0, female := 0, other := 0 } := by
  decide

/-! ## Team naming -/

/-- C10: for every roster of exactly 2 teams, `getTeamName(0)` is "Red Team" and
`getTeamName(1)` is "Black Team". -/
theorem getTeamName_two_teams (balancedTeams : Roster) (h : balancedTeams.length = 2) :
    getTeamName balancedTeams 0 = "Red Team" ∧ getTeamName balancedTeams 1 = "Black Team" := by
  simp [getTeamName, h]

/-- Witness of C10 on the test roster of two teams. -/
theorem getTeamName_two_teams_witness :
    sampleRoster.length = 2 ∧
      getTeamName sampleRoster 0 = "Red Team" ∧ getTeamName sampleRoster 1 = "Black Team" :=
  ⟨rfl, getTeamName_two_teams sampleRoster rfl⟩

/-! ## Pages of a list -/

theorem slice_getElem? {α : Type} (l : List α) (s e j : Nat) :
    (slice l s e)[j]? = if s + j < e then l[s + j]? else none := by
  simp [slice, List.getElem?_drop, List.getElem?_take]

theorem slice_length {α : Type} (l : List α) (s e : Nat) :
    (slice l s e).length = min e l.length - s := by
  simp [slice]

theorem take_min_length {α : Type} (l : List α) (a : Nat) :
    l.take (min a l.length) = l.take a := by
  by_cases h : a ≤ l.length
  · rw [Nat.min_eq_left h]
  · have h2 : l.length ≤ a := by omega
    rw [Nat.min_eq_right h2, List.take_of_length_le h2, List.take_of_length_le (Nat.le_refl _)]

theorem pagesOf_flatten {α : Type} (k m : Nat) (l : List α) :
    (pagesOf k m l).flatten = l.take (m * k) := by
  induction m with
  | zero => simp [pagesOf]
  | succ m ih =>
    have hstep : pagesOf k (m + 1) l =
        pagesOf k m l ++ [slice l (m * k) (min (m * k + k) l.length)] := by
      simp [pagesOf, List.range_succ]
    rw [hstep, List.flatten_concat, ih, slice, take_min_length]
    have h1 : l.take (m * k) = (l.take (m * k + k)).take (m * k) := by
      rw [List.take_take, Nat.min_eq_left (Nat.le_add_right _ _)]
    rw [h1, List.take_append_drop, Nat.succ_mul]

theorem pagesOf_getElem? {α : Type} (k m : Nat) (l : List α) (i : Nat) :
    (pagesOf k m l)[i]? =
      if i < m then some (slice l (i * k) (min (i * k + k) l.length)) else none := by
  by_cases h : i < m
  · simp [pagesOf, List.getElem?_range h, h]
  · have : (List.range m)[i]? = none := by
      rw [List.getElem?_eq_none_iff]
      simpa using h
    simp [pagesOf, this, h]

theorem ceilDiv_bounds (n k : Nat) (hk : k = 2 ∨ k = 4) :
    n ≤ ceilDiv n k * k ∧ ceilDiv n k * k < n + k := by
  rcases hk with rfl | rfl <;> unfold ceilDiv <;> split_ifs <;> omega

theorem teamsPerPage_cases (balancedTeams : Roster) :
    teamsPerPage balancedTeams = 2 ∨ teamsPerPage balancedTeams = 4 := by
  unfold teamsPerPage
  split_ifs
  · exact Or.inl rfl
  · exact Or.inr rfl

theorem teamGroups_eq_pagesOf (balancedTeams : Roster) :
    teamGroups balancedTeams =
      pagesOf (teamsPerPage balancedTeams) (totalPages balancedTeams) balancedTeams :=
  rfl

theorem mapIdx_map_range {β γ : Type} (m : Nat) (G : Nat → β) (F : Nat → β → γ) :
    ((List.range m).map G).mapIdx F = (List.range m).map fun i => F i (G i) := by
  apply List.ext_getElem?
  intro j
  by_cases h : j < m
  · simp [List.getElem?_range h]
  · have : (List.range m)[j]? = none := by
      rw [List.getElem?_eq_none_iff]
      simpa using h
    simp [this]

theorem mapIdx_slice {α : Type} (l : List α) (s e : Nat) :
    (slice l s e).mapIdx (fun j t => (s + j, t)) = slice l.enum s e := by
  apply List.ext_getElem?
  intro j
  rw [List.getElem?_mapIdx, slice_getElem?, slice_getElem?]
  split_ifs
  · rw [List.getElem?_enum]
  · rfl

/-- C11: for every roster of exactly 3 teams and every index `i`, `getTeamName(i)` is
"Red Team" when `i mod 3 = 0`, "Black Team" when `i mod 3 = 1` and "White Team" when
`i mod 3 = 2`. -/
theorem getTeamName_three_teams (balancedTeams : Roster) (i : Nat)
    (h : balancedTeams.length = 3) :
    (i % 3 = 0 → getTeamName balancedTeams i = "Red Team") ∧
      (i % 3 = 1 → getTeamName balancedTeams i = "Black Team") ∧
      (i % 3 = 2 → getTeamName balancedTeams i = "White Team") := by
  refine ⟨?_, ?_, ?_⟩ <;> intro hi <;> simp [getTeamName, h, hi]

/-- Witness of C11 on a roster of three teams, at index 2. -/
theorem getTeamName_three_teams_witness :
    (sampleRoster ++ [createTeamWithStats [bob]]).length = 3 ∧
      getTeamName (sampleRoster ++ [createTeamWithStats [bob]]) 2 = "White Team" :=
  ⟨rfl, (getTeamName_three_teams (sampleRoster ++ [createTeamWithStats [bob]]) 2 rfl).2.2 rfl⟩

/-- C12: for every roster whose team count is neither 2 nor 3 and every index `i`,
`getTeamName(i)` is "Red Team N" when `i` is even and "Black Team N" when `i` is odd, with
`N = floor(i / 2) + 1` written in decimal. -/
theorem getTeamName_numbered (balancedTeams : Roster) (i : Nat)
    (h2 : balancedTeams.length ≠ 2) (h3 : balancedTeams.length ≠ 3) :
    (i % 2 = 0 → getTeamName balancedTeams i = "Red Team " ++ toString (i / 2 + 1)) ∧
      (i % 2 = 1 → getTeamName balancedTeams i = "Black Team " ++ toString (i / 2 + 1)) := by
  constructor <;> intro hi <;> simp [getTeamName, h2, h3, hi]

/-- Witness of C12 on a roster of four teams: the names in index order. -/
theorem getTeamName_numbered_witness :
    (sampleRoster ++ sampleRoster).length = 4 ∧
      getTeamName (sampleRoster ++ sampleRoster) 0 = "Red Team 1" ∧
      getTeamName (sampleRoster ++ sampleRoster) 1 = "Black Team 1" ∧
      getTeamName (sampleRoster ++ sampleRoster) 2 = "Red Team 2" ∧
      getTeamName (sampleRoster ++ sampleRoster) 3 = "Black Team 2" :=
  ⟨rfl,
    (getTeamName_numbered (sampleRoster ++ sampleRoster) 0 (by decide) (by decide)).1 rfl,
    (getTeamName_numbered (sampleRoster ++ sampleRoster) 1 (by decide) (by decide)).2 rfl,
    (getTeamName_numbered (sampleRoster ++ sampleRoster) 2 (by decide) (by decide)).1 rfl,
    (getTeamName_numbered (sampleRoster ++ sampleRoster) 3 (by decide) (by decide)).2 rfl⟩

/-! ## Pagination -/

/-- C13: for every roster, the page size `teamsPerPage` is 2 if at least one team has strictly
more than 12 players and 4 otherwise. -/
theorem teamsPerPage_spec (balancedTeams : Roster) :
    ((∃ t ∈ balancedTeams, 12 < t.players.length) → teamsPerPage balancedTeams = 2) ∧
      ((∀ t ∈ balancedTeams, t.players.length ≤ 12) → teamsPerPage balancedTeams = 4) := by
  constructor
  · rintro ⟨t, ht, hlen⟩
    have : hasLargeTeams balancedTeams = true := by
      simp only [hasLargeTeams, List.any_eq_true]
      exact ⟨t, ht, by simpa using hlen⟩
    simp [teamsPerPage, this]
  · intro hall
    have : hasLargeTeams balancedTeams = false := by
      simp only [hasLargeTeams, List.any_eq_false]
      intro t ht
      simpa using hall t ht
    simp [teamsPerPage, this]

/-- Witness of C13: three teams of 15 players are shown 2 per page; the test roster, a team of
exactly 12 players and the empty roster are shown 4 per page. -/
theorem teamsPerPage_spec_witness :
    teamsPerPage (List.replicate 3 (zeroStats (List.replicate 15 (some alice)))) = 2 ∧
      teamsPerPage sampleRoster = 4 ∧
      teamsPerPage [zeroStats (List.replicate 12 (some alice))] = 4 ∧
      teamsPerPage [] = 4 :=
  ⟨(teamsPerPage_spec _).1 ⟨zeroStats (List.replicate 15 (some alice)), by decide, by decide⟩,
    (teamsPerPage_spec _).2 (by decide),
    (teamsPerPage_spec _).2 (by decide),
    (teamsPerPage_spec _).2 (by simp)⟩

/-- C14: for every roster of `n` teams with page size `k`, `teamGroups` is the partition of the
roster into `ceil(n / k)` ordered contiguous pages: the pages concatenated in order give back the
roster, the page count `m` is the one number with `n ≤ m * k < n + k`, every page but the last
holds exactly `k` teams, the last page holds between 1 and `k` teams, and there is no page when
`n = 0`. -/
theorem teamGroups_partition (balancedTeams : Roster) :
    (teamGroups balancedTeams).flatten = balancedTeams ∧
      (balancedTeams.length ≤ (teamGroups balancedTeams).length * teamsPerPage balancedTeams ∧
        (teamGroups balancedTeams).length * teamsPerPage balancedTeams <
          balancedTeams.length + teamsPerPage balancedTeams) ∧
      (∀ (i : Nat) (g : List Team), (teamGroups balancedTeams)[i]? = some g →
        i + 1 < (teamGroups balancedTeams).length → g.length = teamsPerPage balancedTeams) ∧
      (∀ g : List Team, (teamGroups balancedTeams).getLast? = some g →
        1 ≤ g.length ∧ g.length ≤ teamsPerPage balancedTeams) ∧
      (balancedTeams.length = 0 → teamGroups balancedTeams = []) := by
  have hk := teamsPerPage_cases balancedTeams
  have hb := ceilDiv_bounds balancedTeams.length (teamsPerPage balancedTeams) hk
  have hlen : (teamGroups balancedTeams).length =
      ceilDiv balancedTeams.length (teamsPerPage balancedTeams) := by
    simp [teamGroups, totalPages]
  have hget : ∀ (i : Nat) (g : List Team), (teamGroups balancedTeams)[i]? = some g →
      i < ceilDiv balancedTeams.length (teamsPerPage balancedTeams) ∧
        g.length = min (i * teamsPerPage balancedTeams + teamsPerPage balancedTeams)
          balancedTeams.length - i * teamsPerPage balancedTeams := by
    intro i g hg
    rw [teamGroups_eq_pagesOf, pagesOf_getElem?] at hg
    split_ifs at hg with hi
    cases hg
    refine ⟨hi, ?_⟩
    rw [slice_length]
    congr 1
    omega
  refine ⟨?_, ?_, ?_, ?_, ?_⟩
  · rw [teamGroups_eq_pagesOf, pagesOf_flatten]
    exact List.take_of_length_le hb.1
  · rw [hlen]
    exact hb
  · intro i g hg hi
    obtain ⟨-, hgl⟩ := hget i g hg
    rw [hlen] at hi
    rw [hgl]
    rcases hk with h | h <;> rw [h] at hb hi ⊢ <;> omega
  · intro g hg
    rw [List.getLast?_eq_getElem?] at hg
    obtain ⟨hi, hgl⟩ := hget _ g hg
    rw [hlen] at hi hgl
    rw [hgl]
    rcases hk with h | h <;> rw [h] at hb hi ⊢ <;> omega
  · intro hn
    have hzero : ceilDiv balancedTeams.length (teamsPerPage balancedTeams) = 0 := by
      rcases hk with h | h <;> rw [h] at hb ⊢ <;> omega
    simp [teamGroups, totalPages, hzero]

/-- The two worked examples of the pagination: 8 teams of one player give 2 pages of 4, and
3 teams of 15 players give pages of sizes 2 and 1. -/
theorem teamGroups_examples :
    (teamGroups (List.replicate 8 (createTeamWithStats [alice]))).map List.length = [4, 4] ∧
      (teamGroups (List.replicate 3 (zeroStats (List.replicate 15 (some alice))))).map
        List.length = [2, 1] := by
  decide

/-! ## Drop zone indices -/

theorem dropZones_eq_enum (balancedTeams : Roster) :
    dropZones balancedTeams = balancedTeams.enum := by
  have hk := teamsPerPage_cases balancedTeams
  have hb := ceilDiv_bounds balancedTeams.length (teamsPerPage balancedTeams) hk
  have hpages : dropZones balancedTeams =
      (pagesOf (teamsPerPage balancedTeams) (totalPages balancedTeams)
        balancedTeams.enum).flatten := by
    unfold dropZones teamGroups pagesOf
    rw [mapIdx_map_range]
    congr 1
    apply List.map_congr_left
    intro i _
    simp only [List.enum_length]
    exact mapIdx_slice balancedTeams _ _
  rw [hpages, pagesOf_flatten]
  apply List.take_of_length_le
  rw [List.enum_length]
  exact hb.1

/-- C15: for every roster, the index attached to each rendered drop zone,
`actualIndex = pageIndex * teamsPerPage + position within the page`, is the position of that team
in the roster: the drop zones in document order carry the indices `0, 1, ..., n - 1`, each once,
next to the teams of the roster in order, and the team at page `p`, position `j` is
`balancedTeams[p * teamsPerPage + j]`. -/
theorem dropZones_indices (balancedTeams : Roster) :
    (dropZones balancedTeams).map Prod.fst = List.range balancedTeams.length ∧
      (dropZones balancedTeams).map Prod.snd = balancedTeams ∧
      (∀ (idx : Nat) (team : Team), (idx, team) ∈ dropZones balancedTeams →
        balancedTeams[idx]? = some team) ∧
      (∀ (p j : Nat) (g : List Team) (team : Team), (teamGroups balancedTeams)[p]? = some g →
        g[j]? = some team →
        balancedTeams[p * teamsPerPage balancedTeams + j]? = some team) := by
  rw [dropZones_eq_enum]
  refine ⟨List.enum_map_fst _, List.enum_map_snd _, ?_, ?_⟩
  · intro idx team hmem
    obtain ⟨n, hn⟩ := List.mem_iff_getElem?.mp hmem
    rw [List.getElem?_enum] at hn
    cases hl : balancedTeams[n]? with
    | none => rw [hl] at hn; cases hn
    | some t =>
      rw [hl] at hn
      cases hn
      exact hl
  · intro p j g team hg hj
    rw [teamGroups_eq_pagesOf, pagesOf_getElem?] at hg
    split_ifs at hg
    cases hg
    rw [slice_getElem?] at hj
    split_ifs at hj
    exact hj

/-! ## The touch gesture: classifying the first movement -/

theorem horizontal_iff (deltaX deltaY : Nat) :
    (deltaX : ℚ) > 1.6 * (deltaY : ℚ) ↔ 10 * deltaX > 16 * deltaY := by
  constructor
  · intro h
    have h2 : (16 * deltaY : ℚ) < 10 * deltaX := by
      have : (1.6 : ℚ) = 8 / 5 := by norm_num
      rw [this] at h
      linarith
    exact_mod_cast h2
  · intro h
    have h2 : (16 * deltaY : ℚ) < 10 * deltaX := by exact_mod_cast h
    have : (1.6 : ℚ) = 8 / 5 := by norm_num
    rw [this]
    linarith

/-- C16: for a pending touch session that `handleTouchMove` treats as initialised (an element
recorded, the recorded start Y non-zero, not yet dragging) and a touch-move at `(x, y)`, with
`deltaX = |x - startX|` and `deltaY = |y - startY|`: if `deltaX ≤ 15` and `deltaY ≤ 15` the hook
state is left unchanged; otherwise the session becomes Dragging if and only if
`deltaX > 1.6 * deltaY`, and when it does not, the gesture is cancelled: the touch state is reset
to its initial value and the dragged player is cleared. -/
theorem handleTouchMove_classifies (hook : Hook) (element : Nat) (touch : Touch)
    (innerHeight : Int) (hitTest : Int → Int → Option Nat)
    (hel : hook.touchState.currentElement = some element)
    (hy : hook.touchState.startY ≠ 0)
    (hpending : hook.touchState.isDragging = false) :
    ((touch.clientX - hook.touchState.startX).natAbs ≤ 15 ∧
        (touch.clientY - hook.touchState.startY).natAbs ≤ 15 →
        handleTouchMove hook (some touch) innerHeight hitTest = hook) ∧
      (¬ ((touch.clientX - hook.touchState.startX).natAbs ≤ 15 ∧
          (touch.clientY - hook.touchState.startY).natAbs ≤ 15) →
        (((handleTouchMove hook (some touch) innerHeight hitTest).touchState.isDragging = true ↔
            (((touch.clientX - hook.touchState.startX).natAbs : ℚ) >
              1.6 * ((touch.clientY - hook.touchState.startY).natAbs : ℚ))) ∧
          (¬ (((touch.clientX - hook.touchState.startX).natAbs : ℚ) >
              1.6 * ((touch.clientY - hook.touchState.startY).natAbs : ℚ)) →
            (handleTouchMove hook (some touch) innerHeight hitTest).touchState =
                TouchState.initial ∧
              (handleTouchMove hook (some touch) innerHeight hitTest).draggedPlayer = none))) := by
  rw [horizontal_iff]
  constructor
  · intro hwithin
    have hnot : ¬ ((touch.clientY - hook.touchState.startY).natAbs > 15 ∨
        (touch.clientX - hook.touchState.startX).natAbs > 15) := by omega
    simp [handleTouchMove, hel, hy, hpending, hnot]
  · intro hbeyond
    have hb : (touch.clientY - hook.touchState.startY).natAbs > 15 ∨
        (touch.clientX - hook.touchState.startX).natAbs > 15 := by omega
    by_cases hhor : 10 * (touch.clientX - hook.touchState.startX).natAbs >
        16 * (touch.clientY - hook.touchState.startY).natAbs
    · simp [handleTouchMove, hel, hy, hpending, hb, hhor]
    · simp [handleTouchMove, hel, hy, hpending, hb, hhor, TouchState.initial]

/-- Witness of C16 on the touch recorded at (100, 100): a move to (130, 105) has
`deltaX = 30` and `deltaY = 5` and starts the drag, a move to (105, 130) cancels the gesture, and
a move to (110, 110) changes nothing. -/
theorem handleTouchMove_classifies_witness :
    (handleTouchMove pendingTouch (some { clientX := 130, clientY := 105 }) 800
        (fun _ _ => none)).touchState.isDragging = true ∧
      (handleTouchMove pendingTouch (some { clientX := 105, clientY := 130 }) 800
        (fun _ _ => none)).touchState = TouchState.initial ∧
      handleTouchMove pendingTouch (some { clientX := 110, clientY := 110 }) 800
        (fun _ _ => none) = pendingTouch :=
  ⟨((handleTouchMove_classifies pendingTouch 1 { clientX := 130, clientY := 105 } 800
      (fun _ _ => none) rfl (by decide) rfl).2 (by decide)).1.mpr
        (by simp [pendingTouch, handleTouchStart]; norm_num),
    (((handleTouchMove_classifies pendingTouch 1 { clientX := 105, clientY := 130 } 800
      (fun _ _ => none) rfl (by decide) rfl).2 (by decide)).2
        (by simp [pendingTouch, handleTouchStart]; norm_num)).1,
    (handleTouchMove_classifies pendingTouch 1 { clientX := 110, clientY := 110 } 800
      (fun _ _ => none) rfl (by decide) rfl).1 (by decide)⟩

/-! ## The touch gesture: sequences of touch-move events -/

theorem handleTouchMove_inert (hook : Hook) (touch0 : Option Touch) (innerHeight : Int)
    (hitTest : Int → Int → Option Nat)
    (h : hook.touchState.currentElement = none ∨ hook.touchState.startY = 0) :
    handleTouchMove hook touch0 innerHeight hitTest = hook := by
  simp [handleTouchMove, h]

theorem handleTouchMove_within (hook : Hook) (touch0 : Option Touch) (innerHeight : Int)
    (hitTest : Int → Int → Option Nat)
    (hpending : hook.touchState.isDragging = false)
    (hwithin : ∀ touch : Touch, touch0 = some touch →
      (touch.clientX - hook.touchState.startX).natAbs ≤ 15 ∧
        (touch.clientY - hook.touchState.startY).natAbs ≤ 15) :
    handleTouchMove hook touch0 innerHeight hitTest = hook := by
  by_cases hin : hook.touchState.currentElement = none ∨ hook.touchState.startY = 0
  · exact handleTouchMove_inert hook touch0 innerHeight hitTest hin
  · cases touch0 with
    | none => simp [handleTouchMove, hin]
    | some touch =>
      have hw := hwithin touch rfl
      have hnot : ¬ ((touch.clientY - hook.touchState.startY).natAbs > 15 ∨
          (touch.clientX - hook.touchState.startX).natAbs > 15) := by omega
      simp [handleTouchMove, hin, hpending, hnot]

theorem touchTrace_fixed (hook : Hook) (events : List MoveEvent)
    (hfix : ∀ ev ∈ events, handleTouchMove hook ev.touch ev.innerHeight ev.hitTest = hook) :
    (∀ h ∈ touchTrace hook events, h = hook) ∧ runTouchMoves hook events = hook := by
  induction events with
  | nil => simp [touchTrace, runTouchMoves]
  | cons ev rest ih =>
    have hev := hfix ev (List.mem_cons_self _ _)
    obtain ⟨ih1, ih2⟩ := ih (fun e he => hfix e (List.mem_cons_of_mem _ he))
    constructor
    · intro h hmem
      simp only [touchTrace, hev, List.mem_cons] at hmem
      rcases hmem with rfl | hmem
      · rfl
      · exact ih1 h hmem
    · simpa [runTouchMoves, hev] using ih2

theorem touchTrace_append_fixed (hook : Hook) (pre rest : List MoveEvent)
    (hfix : ∀ ev ∈ pre, handleTouchMove hook ev.touch ev.innerHeight ev.hitTest = hook) :
    (∀ h ∈ touchTrace hook (pre ++ rest), h ∈ touchTrace hook rest) ∧
      runTouchMoves hook (pre ++ rest) = runTouchMoves hook rest := by
  induction pre with
  | nil => simp
  | cons ev pre ih =>
    have hev := hfix ev (List.mem_cons_self _ _)
    obtain ⟨ih1, ih2⟩ := ih (fun e he => hfix e (List.mem_cons_of_mem _ he))
    constructor
    · intro h hmem
      simp only [List.cons_append, touchTrace, hev, List.mem_cons] at hmem
      rcases hmem with rfl | hmem
      · cases rest <;> simp [touchTrace]
      · exact ih1 h hmem
    · simpa [runTouchMoves, hev] using ih2

theorem touchTrace_last (hook : Hook) (events : List MoveEvent) :
    (touchTrace hook events).getLast? = some (runTouchMoves hook events) := by
  induction events generalizing hook with
  | nil => rfl
  | cons ev rest ih =>
    have hne : touchTrace (handleTouchMove hook ev.touch ev.innerHeight ev.hitTest) rest ≠ [] := by
      cases rest <;> simp [touchTrace]
    have hih := ih (handleTouchMove hook ev.touch ev.innerHeight ev.hitTest)
    rw [touchTrace]
    cases htr : touchTrace (handleTouchMove hook ev.touch ev.innerHeight ev.hitTest) rest with
    | nil => exact absurd htr hne
    | cons b l =>
      rw [htr] at hih
      rw [List.getLast?_cons_cons]
      exact hih

/-- C17, the code at the failing input: a touch starts on a player at the point (100, 0), on the
top edge of the viewport, and moves to (130, 5), so `deltaX = 30` and `deltaY = 5`. The handler
returns at its first test (`touchState.startY === 0`, `Teams.js:106`): the session is not
Dragging and the hook is exactly as the touch-start left it. -/
theorem touch_from_top_edge_never_drags :
    (handleTouchMove
        (handleTouchStart Hook.idle { clientX := 100, clientY := 0 } 1 0 0 (some "1"))
        (some { clientX := 130, clientY := 5 }) 800 (fun _ _ => none)).touchState.isDragging =
        false ∧
      handleTouchMove
        (handleTouchStart Hook.idle { clientX := 100, clientY := 0 } 1 0 0 (some "1"))
        (some { clientX := 130, clientY := 5 }) 800 (fun _ _ => none) =
        handleTouchStart Hook.idle { clientX := 100, clientY := 0 } 1 0 0 (some "1") := by
  constructor <;> rfl

theorem horizontal_gesture_drags (hook : Hook) (start : Touch) (element t p : Nat)
    (playerId : Option String) (pre : List MoveEvent) (ev : MoveEvent) (touch : Touch)
    (hstart : start.clientY ≠ 0)
    (hpre : ∀ e ∈ pre, ∀ tc : Touch, e.touch = some tc →
      (tc.clientX - start.clientX).natAbs ≤ 15 ∧ (tc.clientY - start.clientY).natAbs ≤ 15)
    (hev : ev.touch = some touch)
    (hbeyond : (touch.clientX - start.clientX).natAbs > 15 ∨
      (touch.clientY - start.clientY).natAbs > 15)
    (hhor : ((touch.clientX - start.clientX).natAbs : ℚ) >
      1.6 * ((touch.clientY - start.clientY).natAbs : ℚ)) :
    (runTouchMoves (handleTouchStart hook start element t p playerId)
      (pre ++ [ev])).touchState.isDragging = true := by
  have hfix : ∀ e ∈ pre, handleTouchMove (handleTouchStart hook start element t p playerId)
      e.touch e.innerHeight e.hitTest = handleTouchStart hook start element t p playerId :=
    fun e he => handleTouchMove_within _ _ _ _ rfl (hpre e he)
  rw [(touchTrace_append_fixed _ pre [ev] hfix).2]
  rw [horizontal_iff] at hhor
  have hb : (touch.clientY - start.clientY).natAbs > 15 ∨
      (touch.clientX - start.clientX).natAbs > 15 := by omega
  simp [runTouchMoves, handleTouchMove, handleTouchStart, hev, hstart, hb, hhor]

/-- C18: for every touch gesture whose first movement beyond the 15-pixel threshold is
vertical-dominant (`deltaY ≥ deltaX`), the session is not Dragging before or after any touch-move
event of the gesture, whatever events follow, and the final touch-end does not call
`setBalancedTeams` (the touch-move handler has no call of it at all). -/
theorem vertical_gesture_never_drags (hook : Hook) (start : Touch) (element t p : Nat)
    (playerId : Option String) (pre : List MoveEvent) (ev : MoveEvent) (touch : Touch)
    (post : List MoveEvent) (balancedTeams : Roster) (changedTouch : Option Touch)
    (hitTest : Int → Int → Option Nat)
    (hpre : ∀ e ∈ pre, ∀ tc : Touch, e.touch = some tc →
      (tc.clientX - start.clientX).natAbs ≤ 15 ∧ (tc.clientY - start.clientY).natAbs ≤ 15)
    (hev : ev.touch = some touch)
    (hbeyond : (touch.clientX - start.clientX).natAbs > 15 ∨
      (touch.clientY - start.clientY).natAbs > 15)
    (hvertical : (touch.clientY - start.clientY).natAbs ≥
      (touch.clientX - start.clientX).natAbs) :
    (∀ h ∈ touchTrace (handleTouchStart hook start element t p playerId) (pre ++ ev :: post),
        h.touchState.isDragging = false) ∧
      (handleTouchEnd
        (runTouchMoves (handleTouchStart hook start element t p playerId) (pre ++ ev :: post))
        balancedTeams changedTouch hitTest).published = [] := by
  have hfix : ∀ e ∈ pre, handleTouchMove (handleTouchStart hook start element t p playerId)
      e.touch e.innerHeight e.hitTest = handleTouchStart hook start element t p playerId :=
    fun e he => handleTouchMove_within _ _ _ _ rfl (hpre e he)
  obtain ⟨htrace, hrun⟩ := touchTrace_append_fixed _ pre (ev :: post) hfix
  -- the state after the classified movement takes no further touch-move into account
  have hnext : ∃ h1 : Hook,
      handleTouchMove (handleTouchStart hook start element t p playerId)
        ev.touch ev.innerHeight ev.hitTest = h1 ∧
      h1.touchState.isDragging = false ∧
      (h1.touchState.currentElement = none ∨ h1.touchState.startY = 0) := by
    refine ⟨_, rfl, ?_⟩
    by_cases hs : start.clientY = 0
    · rw [handleTouchMove_inert _ _ _ _ (Or.inr hs)]
      exact ⟨rfl, Or.inr hs⟩
    · have hb : (touch.clientY - start.clientY).natAbs > 15 ∨
          (touch.clientX - start.clientX).natAbs > 15 := by omega
      have hnh : ¬ (10 * (touch.clientX - start.clientX).natAbs >
          16 * (touch.clientY - start.clientY).natAbs) := by omega
      simp [handleTouchMove, handleTouchStart, hev, hs, hb, hnh, TouchState.initial]
  obtain ⟨h1, hstep, hnd, hinert⟩ := hnext
  have hpost := touchTrace_fixed h1 post
    (fun e _ => handleTouchMove_inert h1 e.touch e.innerHeight e.hitTest hinert)
  constructor
  · intro h hmem
    have hmem2 := htrace h hmem
    simp only [touchTrace, hstep, List.mem_cons] at hmem2
    rcases hmem2 with rfl | hmem2
    · rfl
    · rw [hpost.1 h hmem2]
      exact hnd
  · rw [hrun]
    have hfinal : runTouchMoves (handleTouchStart hook start element t p playerId)
        (ev :: post) = h1 := by
      have : runTouchMoves (handleTouchStart hook start element t p playerId) (ev :: post) =
          runTouchMoves h1 post := by
        simp [runTouchMoves, hstep]
      rw [this, hpost.2]
    rw [hfinal]
    simp [handleTouchEnd, hnd]

/-- Witness of C18: a touch at (100, 100) moves to (105, 130), so `deltaX = 5` and
`deltaY = 30`, then sideways to (300, 130), and ends over the drop zone of team 1. -/
theorem vertical_gesture_never_drags_witness :
    (∀ h ∈ touchTrace pendingTouch
        ([] ++ { touch := some { clientX := 105, clientY := 130 }, innerHeight := 800
                 hitTest := fun _ _ => some 1 } ::
          [{ touch := some { clientX := 300, clientY := 130 }, innerHeight := 800
             hitTest := fun _ _ => some 1 }]),
        h.touchState.isDragging = false) ∧
      (handleTouchEnd
        (runTouchMoves pendingTouch
          ([] ++ { touch := some { clientX := 105, clientY := 130 }, innerHeight := 800
                   hitTest := fun _ _ => some 1 } ::
            [{ touch := some { clientX := 300, clientY := 130 }, innerHeight := 800
               hitTest := fun _ _ => some 1 }]))
        sampleRoster (some { clientX := 300, clientY := 130 }) (fun _ _ => some 1)).published =
        [] :=
  vertical_gesture_never_drags Hook.idle { clientX := 100, clientY := 100 } 1 0 0 (some "1") []
    { touch := some { clientX := 105, clientY := 130 }, innerHeight := 800
      hitTest := fun _ _ => some 1 }
    { clientX := 105, clientY := 130 }
    [{ touch := some { clientX := 300, clientY := 130 }, innerHeight := 800
       hitTest := fun _ _ => some 1 }]
    sampleRoster (some { clientX := 300, clientY := 130 }) (fun _ _ => some 1)
    (by simp) rfl (by decide) (by decide)

/-! ## The touch-end and the pointer drop publish the same roster -/

theorem handleTouchEnd_of_move (hook : Hook) (balancedTeams : Roster) (touch : Touch)
    (hitTest : Int → Int → Option Nat) (d : Nat) (dragged : DraggedPlayer)
    (hdragging : hook.touchState.isDragging = true)
    (hhit : hitTest touch.clientX touch.clientY = some d)
    (hdrag : hook.draggedPlayer = some dragged)
    (hne : dragged.teamIndex ≠ d) :
    (handleTouchEnd hook balancedTeams (some touch) hitTest).published =
        (moveBlock balancedTeams dragged.teamIndex dragged.playerIndex d).published ∧
      (handleTouchEnd hook balancedTeams (some touch) hitTest).threw =
        (moveBlock balancedTeams dragged.teamIndex dragged.playerIndex d).threw := by
  simp only [handleTouchEnd, hdragging, hhit, hdrag]
  cases hthrew : (moveBlock balancedTeams dragged.teamIndex dragged.playerIndex d).threw <;>
    simp [hne, hthrew]

theorem handleTouchEnd_teamsNow_of_move (hook : Hook) (balancedTeams : Roster) (touch : Touch)
    (hitTest : Int → Int → Option Nat) (d : Nat) (dragged : DraggedPlayer)
    (hdragging : hook.touchState.isDragging = true)
    (hhit : hitTest touch.clientX touch.clientY = some d)
    (hdrag : hook.draggedPlayer = some dragged)
    (hne : dragged.teamIndex ≠ d) :
    (handleTouchEnd hook balancedTeams (some touch) hitTest).teamsNow =
      (moveBlock balancedTeams dragged.teamIndex dragged.playerIndex d).teamsNow := by
  simp only [handleTouchEnd, hdragging, hhit, hdrag]
  cases hthrew : (moveBlock balancedTeams dragged.teamIndex dragged.playerIndex d).threw <;>
    simp [hne, hthrew]

theorem handleTouchEnd_published_only_if (hook : Hook) (balancedTeams : Roster)
    (changedTouch : Option Touch) (hitTest : Int → Int → Option Nat)
    (hpub : (handleTouchEnd hook balancedTeams changedTouch hitTest).published ≠ []) :
    hook.touchState.isDragging = true ∧
      ∃ (touch : Touch) (d : Nat) (dragged : DraggedPlayer),
        changedTouch = some touch ∧ hitTest touch.clientX touch.clientY = some d ∧
        hook.draggedPlayer = some dragged ∧ dragged.teamIndex ≠ d := by
  cases hdragging : hook.touchState.isDragging with
  | false => simp [handleTouchEnd, hdragging] at hpub
  | true =>
    cases changedTouch with
    | none => simp [handleTouchEnd, hdragging] at hpub
    | some touch =>
      cases hhit : hitTest touch.clientX touch.clientY with
      | none => simp [handleTouchEnd, hdragging, hhit] at hpub
      | some d =>
        cases hdrag : hook.draggedPlayer with
        | none => simp [handleTouchEnd, hdragging, hhit, hdrag] at hpub
        | some dragged =>
          by_cases hne : dragged.teamIndex = d
          · simp [handleTouchEnd, hdragging, hhit, hdrag, hne] at hpub
          · exact ⟨rfl, touch, d, dragged, rfl, hhit, rfl, hne⟩

/-- C19, counterexample: the session is Dragging, touch data is present, the touch point
hit-tests to the drop zone of team 1, a dragged player is recorded and its team index 5 differs
from 1, yet `handleTouchEnd` publishes nothing on the two-team test roster: reading team 5
throws a `TypeError`. -/
theorem handleTouchEnd_stale_source_publishes_nothing :
    (touchDraggingFrom 5 0 (some "1")).touchState.isDragging = true ∧
      (touchDraggingFrom 5 0 (some "1")).draggedPlayer =
        some { teamIndex := 5, playerIndex := 0, playerId := some "1" } ∧
      (handleTouchEnd (touchDraggingFrom 5 0 (some "1")) sampleRoster
        (some { clientX := 400, clientY := 120 }) (fun _ _ => some 1)).published = [] ∧
      (handleTouchEnd (touchDraggingFrom 5 0 (some "1")) sampleRoster
        (some { clientX := 400, clientY := 120 }) (fun _ _ => some 1)).threw =
        some JsError.typeError := by
  decide

/-- C19, amended: `handleTouchEnd` publishes a roster only if the session is Dragging, touch data
is present, the final touch point hit-tests to a team drop zone, a dragged player is recorded and
the team index of that zone differs from the source team index; when these hold and the source
team index, the player index and the destination index are in range it publishes exactly one
roster, and when they hold and a team index is out of range it throws a `TypeError` and publishes
nothing; whenever it publishes, the roster is exactly the one `handleDrop` publishes for the same
source team index, player index and destination index. -/
theorem handleTouchEnd_publishes (hook : Hook) (balancedTeams : Roster)
    (changedTouch : Option Touch) (hitTest : Int → Int → Option Nat) :
    ((handleTouchEnd hook balancedTeams changedTouch hitTest).published ≠ [] →
        hook.touchState.isDragging = true ∧
        ∃ (touch : Touch) (d : Nat) (dragged : DraggedPlayer),
          changedTouch = some touch ∧ hitTest touch.clientX touch.clientY = some d ∧
          hook.draggedPlayer = some dragged ∧ dragged.teamIndex ≠ d) ∧
      (∀ (touch : Touch) (d : Nat) (dragged : DraggedPlayer),
        hook.touchState.isDragging = true → changedTouch = some touch →
        hitTest touch.clientX touch.clientY = some d → hook.draggedPlayer = some dragged →
        dragged.teamIndex ≠ d →
        ((∀ (source dest : Team) (moved : Slot),
            balancedTeams[dragged.teamIndex]? = some source →
            balancedTeams[d]? = some dest →
            source.players[dragged.playerIndex]? = some moved →
            ∃ newTeams : Roster,
              (handleTouchEnd hook balancedTeams changedTouch hitTest).published =
                [newTeams]) ∧
          (balancedTeams.length ≤ dragged.teamIndex ∨ balancedTeams.length ≤ d →
            (handleTouchEnd hook balancedTeams changedTouch hitTest).published = [] ∧
            (handleTouchEnd hook balancedTeams changedTouch hitTest).threw =
              some JsError.typeError))) ∧
      (∀ (d : Nat) (dragged : DraggedPlayer) (touch : Touch) (dropHook : Hook)
        (dropDragged : DraggedPlayer),
        (handleTouchEnd hook balancedTeams changedTouch hitTest).published ≠ [] →
        changedTouch = some touch → hitTest touch.clientX touch.clientY = some d →
        hook.draggedPlayer = some dragged → dropHook.draggedPlayer = some dropDragged →
        dropDragged.teamIndex = dragged.teamIndex →
        dropDragged.playerIndex = dragged.playerIndex →
        (handleTouchEnd hook balancedTeams changedTouch hitTest).published =
          (handleDrop dropHook balancedTeams d).published) := by
  refine ⟨handleTouchEnd_published_only_if hook balancedTeams changedTouch hitTest, ?_, ?_⟩
  · intro touch d dragged hdragging htouch hhit hdrag hne
    subst htouch
    obtain ⟨hpub, hthrew⟩ :=
      handleTouchEnd_of_move hook balancedTeams touch hitTest d dragged hdragging hhit hdrag hne
    rw [hpub, hthrew]
    constructor
    · intro source dest moved hsrc hdst _
      rw [moveBlock_of_valid _ _ _ _ source dest hsrc hdst hne]
      exact ⟨_, rfl⟩
    · intro hout
      cases hsrc : balancedTeams[dragged.teamIndex]? with
      | none => rw [moveBlock_source_missing _ _ _ _ hsrc]; exact ⟨rfl, rfl⟩
      | some source =>
        have hd : balancedTeams[d]? = none := by
          rcases hout with h | h
          · rw [List.getElem?_eq_none_iff.mpr h] at hsrc
            cases hsrc
          · exact List.getElem?_eq_none_iff.mpr h
        rw [moveBlock_dest_missing _ _ _ _ source hsrc hd]
        exact ⟨rfl, rfl⟩
  · intro d dragged touch dropHook dropDragged hpub htouch hhit hdrag hdrop hs hp
    obtain ⟨hdragging, touch2, d2, dragged2, htouch2, hhit2, hdrag2, hne2⟩ :=
      handleTouchEnd_published_only_if hook balancedTeams changedTouch hitTest hpub
    subst htouch
    cases htouch2
    rw [hhit] at hhit2
    cases hhit2
    rw [hdrag] at hdrag2
    cases hdrag2
    rw [(handleTouchEnd_of_move hook balancedTeams touch hitTest d dragged hdragging hhit hdrag
      hne2).1]
    have hne3 : dropDragged.teamIndex ≠ d := by rw [hs]; exact hne2
    rw [(handleDrop_of_session dropHook balancedTeams dropDragged d hdrop hne3).2.1, hs, hp]

/-- Witness of the amended C19 on the test roster: the touch drag of Alice, player 0 of team 0,
ends over the drop zone of team 1; one roster is published, the one the pointer drop of the same
player on team 1 publishes. -/
theorem handleTouchEnd_publishes_witness :
    (∃ newTeams : Roster,
        (handleTouchEnd (touchDraggingFrom 0 0 (some "1")) sampleRoster
          (some { clientX := 400, clientY := 120 }) (fun _ _ => some 1)).published =
            [newTeams]) ∧
      (handleTouchEnd (touchDraggingFrom 0 0 (some "1")) sampleRoster
        (some { clientX := 400, clientY := 120 }) (fun _ _ => some 1)).published =
        (handleDrop (draggingFrom 0 0 none) sampleRoster 1).published :=
  ⟨((handleTouchEnd_publishes (touchDraggingFrom 0 0 (some "1")) sampleRoster
      (some { clientX := 400, clientY := 120 }) (fun _ _ => some 1)).2.1
        { clientX := 400, clientY := 120 } 1
        { teamIndex := 0, playerIndex := 0, playerId := some "1" }
        rfl rfl rfl rfl (by decide)).1
        (createTeamWithStats [alice, bob]) (createTeamWithStats [charlie]) (some alice)
        rfl rfl rfl,
    (handleTouchEnd_publishes (touchDraggingFrom 0 0 (some "1")) sampleRoster
      (some { clientX := 400, clientY := 120 }) (fun _ _ => some 1)).2.2 1
        { teamIndex := 0, playerIndex := 0, playerId := some "1" }
        { clientX := 400, clientY := 120 } (draggingFrom 0 0 none)
        { teamIndex := 0, playerIndex := 0, playerId := none }
        (by decide) rfl rfl rfl rfl rfl rfl⟩

/-! ## What is left when a drag session ends -/

theorem handleDrop_hook (hook : Hook) (balancedTeams : Roster) (d : Nat) :
    (handleDrop hook balancedTeams d).hook =
      { hook with highlighted := hook.highlighted.filter (fun z => z != d) } := by
  unfold handleDrop
  cases hook.draggedPlayer with
  | none => rfl
  | some dragged =>
    simp only
    split_ifs <;> rfl

theorem pointerStep_frame (hook : Hook) (e : PointerEvent) :
    (pointerStep hook e).draggedPlayer = hook.draggedPlayer ∧
      (pointerStep hook e).touchState = hook.touchState ∧
      (pointerStep hook e).autoScrollInterval = hook.autoScrollInterval ∧
      (pointerStep hook e).ghosts = hook.ghosts := by
  cases e with
  | dragOver z => exact ⟨rfl, rfl, rfl, rfl⟩
  | dragLeave z => exact ⟨rfl, rfl, rfl, rfl⟩
  | drop z teams => simp [pointerStep, handleDrop_hook]

theorem pointerStep_highlighted (hook : Hook) (e : PointerEvent) (z : Nat)
    (hz : z ∈ (pointerStep hook e).highlighted) :
    e = PointerEvent.dragOver z ∨ (z ∈ hook.highlighted ∧ ¬ e.clears z) := by
  cases e with
  | dragOver y =>
    simp only [pointerStep, handleDragOver] at hz
    by_cases hzy : y = z
    · left; rw [hzy]
    · right
      refine ⟨?_, fun h => h⟩
      split_ifs at hz
      · exact hz
      · rcases List.mem_append.mp hz with h | h
        · exact h
        · exact absurd (List.mem_singleton.mp h).symm hzy
  | dragLeave y =>
    simp only [pointerStep, handleDragLeave, List.mem_filter, bne_iff_ne] at hz
    exact Or.inr ⟨hz.1, fun h => hz.2 h.symm⟩
  | drop y teams =>
    simp only [pointerStep, handleDrop_hook, List.mem_filter, bne_iff_ne] at hz
    exact Or.inr ⟨hz.1, fun h => hz.2 h.symm⟩

theorem runPointer_frame (hook : Hook) (events : List PointerEvent) :
    (runPointer hook events).draggedPlayer = hook.draggedPlayer ∧
      (runPointer hook events).touchState = hook.touchState ∧
      (runPointer hook events).autoScrollInterval = hook.autoScrollInterval ∧
      (runPointer hook events).ghosts = hook.ghosts := by
  induction events generalizing hook with
  | nil => exact ⟨rfl, rfl, rfl, rfl⟩
  | cons e rest ih =>
    obtain ⟨h1, h2, h3, h4⟩ := ih (pointerStep hook e)
    obtain ⟨g1, g2, g3, g4⟩ := pointerStep_frame hook e
    exact ⟨h1.trans g1, h2.trans g2, h3.trans g3, h4.trans g4⟩

theorem runPointer_highlighted (hook : Hook) (events : List PointerEvent) (z : Nat)
    (hz : z ∈ (runPointer hook events).highlighted) :
    (z ∈ hook.highlighted ∧ ∀ e ∈ events, ¬ e.clears z) ∨
      ∃ a b : List PointerEvent, events = a ++ PointerEvent.dragOver z :: b ∧
        ∀ e ∈ b, ¬ e.clears z := by
  induction events generalizing hook with
  | nil => exact Or.inl ⟨hz, by simp⟩
  | cons e rest ih =>
    rcases ih (pointerStep hook e) hz with ⟨hmem, hrest⟩ | ⟨a, b, hab, hb⟩
    · rcases pointerStep_highlighted hook e z hmem with he | ⟨hin, hnc⟩
      · exact Or.inr ⟨[], rest, by rw [he]; rfl, hrest⟩
      · left
        refine ⟨hin, ?_⟩
        intro e2 he2
        rcases List.mem_cons.mp he2 with rfl | h
        · exact hnc
        · exact hrest e2 h
    · exact Or.inr ⟨e :: a, b, by rw [hab]; rfl, hb⟩

theorem touchSessionInv_start (start : Touch) (element t p : Nat) (playerId : Option String) :
    TouchSessionInv (handleTouchStart Hook.idle start element t p playerId) :=
  ⟨rfl, fun _ => ⟨rfl, rfl, rfl⟩⟩

theorem touchSessionInv_move (h : Hook) (touch0 : Option Touch) (innerHeight : Int)
    (hitTest : Int → Int → Option Nat) (hinv : TouchSessionInv h) :
    TouchSessionInv (handleTouchMove h touch0 innerHeight hitTest) := by
  by_cases hin : h.touchState.currentElement = none ∨ h.touchState.startY = 0
  · rw [handleTouchMove_inert h touch0 innerHeight hitTest hin]
    exact hinv
  · cases touch0 with
    | none =>
      have : handleTouchMove h none innerHeight hitTest = h := by simp [handleTouchMove, hin]
      rw [this]
      exact hinv
    | some touch =>
      cases hpending : h.touchState.isDragging with
      | true =>
        have hres : handleTouchMove h (some touch) innerHeight hitTest =
            { h with
              autoScrollInterval :=
                if touch.clientY < 80 then some (-8)
                else if touch.clientY > innerHeight - 80 then some 8
                else none
              highlighted :=
                match hitTest touch.clientX touch.clientY with
                | some teamContainer => [teamContainer]
                | none => [] } := by
          simp [handleTouchMove, hin, hpending]
        rw [hres]
        exact ⟨hinv.1, fun hfalse => by simp [hpending] at hfalse⟩
      | false =>
        obtain ⟨hg, hhl, hint⟩ := hinv.2 hpending
        by_cases hb : (touch.clientY - h.touchState.startY).natAbs > 15 ∨
            (touch.clientX - h.touchState.startX).natAbs > 15
        · by_cases hhor : 10 * (touch.clientX - h.touchState.startX).natAbs >
              16 * (touch.clientY - h.touchState.startY).natAbs
          · have hres : handleTouchMove h (some touch) innerHeight hitTest =
                { h with
                  ghosts := h.ghosts ++ [freshElement h.ghosts]
                  touchState :=
                    { h.touchState with
                      isDragging := true, ghostElement := some (freshElement h.ghosts) } } := by
              simp [handleTouchMove, hin, hpending, hb, hhor]
            rw [hres]
            exact ⟨by simp [hg], fun hfalse => by simp at hfalse⟩
          · have hres : handleTouchMove h (some touch) innerHeight hitTest =
                { h with
                  autoScrollInterval := none
                  touchState := TouchState.initial
                  draggedPlayer := none } := by
              simp [handleTouchMove, hin, hpending, hb, hhor]
            rw [hres]
            exact ⟨by simp [hg, TouchState.initial], fun _ => ⟨hg, hhl, rfl⟩⟩
        · have hres : handleTouchMove h (some touch) innerHeight hitTest = h := by
            simp [handleTouchMove, hin, hpending, hb]
          rw [hres]
          exact hinv

theorem touchSessionInv_run (h : Hook) (events : List MoveEvent) (hinv : TouchSessionInv h) :
    TouchSessionInv (runTouchMoves h events) := by
  induction events generalizing h with
  | nil => exact hinv
  | cons ev rest ih =>
    exact ih _ (touchSessionInv_move h ev.touch ev.innerHeight ev.hitTest hinv)

theorem handleTouchEnd_hook_cases (h : Hook) (balancedTeams : Roster)
    (changedTouch : Option Touch) (hitTest : Int → Int → Option Nat) :
    ((handleTouchEnd h balancedTeams changedTouch hitTest).threw = none ∧
        (handleTouchEnd h balancedTeams changedTouch hitTest).hook =
          { draggedPlayer := none
            touchState := TouchState.initial
            autoScrollInterval := none
            highlighted := []
            ghosts :=
              match h.touchState.ghostElement with
              | some g => h.ghosts.filter (fun x => x != g)
              | none => h.ghosts }) ∨
      ((handleTouchEnd h balancedTeams changedTouch hitTest).threw ≠ none ∧
        (handleTouchEnd h balancedTeams changedTouch hitTest).hook =
          { draggedPlayer := h.draggedPlayer
            touchState := h.touchState
            autoScrollInterval := none
            highlighted := []
            ghosts :=
              match h.touchState.ghostElement with
              | some g => h.ghosts.filter (fun x => x != g)
              | none => h.ghosts }) := by
  cases hdragging : h.touchState.isDragging with
  | false => left; simp [handleTouchEnd, hdragging]
  | true =>
    cases changedTouch with
    | none => left; simp [handleTouchEnd, hdragging]
    | some touch =>
      cases hhit : hitTest touch.clientX touch.clientY with
      | none => left; simp [handleTouchEnd, hdragging, hhit]
      | some d =>
        cases hdrag : h.draggedPlayer with
        | none => left; simp [handleTouchEnd, hdragging, hhit, hdrag]
        | some dragged =>
          by_cases hne : dragged.teamIndex = d
          · left; simp [handleTouchEnd, hdragging, hhit, hdrag, hne]
          · cases hthrew : (moveBlock balancedTeams dragged.teamIndex dragged.playerIndex
                d).threw with
            | none => left; simp [handleTouchEnd, hdragging, hhit, hdrag, hne, hthrew]
            | some err => right; simp [handleTouchEnd, hdragging, hhit, hdrag, hne, hthrew]

theorem handleTouchEnd_cleans (h : Hook) (balancedTeams : Roster) (changedTouch : Option Touch)
    (hitTest : Int → Int → Option Nat) (hinv : TouchSessionInv h) :
    (handleTouchEnd h balancedTeams changedTouch hitTest).hook.highlighted = [] ∧
      (handleTouchEnd h balancedTeams changedTouch hitTest).hook.ghosts = [] ∧
      (handleTouchEnd h balancedTeams changedTouch hitTest).hook.autoScrollInterval = none ∧
      ((handleTouchEnd h balancedTeams changedTouch hitTest).threw = none →
        (handleTouchEnd h balancedTeams changedTouch hitTest).hook = Hook.idle) := by
  have hghost : (match h.touchState.ghostElement with
      | some g => h.ghosts.filter (fun x => x != g)
      | none => h.ghosts) = [] := by
    rw [hinv.1]
    cases h.touchState.ghostElement <;> simp
  rcases handleTouchEnd_hook_cases h balancedTeams changedTouch hitTest with
    ⟨hthrew, hhook⟩ | ⟨hthrew, hhook⟩
  · rw [hhook, hghost]
    exact ⟨rfl, rfl, rfl, fun _ => rfl⟩
  · rw [hhook, hghost]
    exact ⟨rfl, rfl, rfl, fun hnone => absurd hnone hthrew⟩

/-- A touch on player 0 of team index 5 is dragged to the right and ends over the drop zone of
team 1 of the two-team test roster. The touch-end throws a `TypeError` before its final reset, so
the dragged player is still recorded and the touch state still says Dragging. -/
theorem handleTouchEnd_throwing_leaves_session :
    (handleTouchEnd
        (touchSession { clientX := 100, clientY := 100 } 1 5 0 (some "1") [moveRight])
        sampleRoster (some { clientX := 400, clientY := 120 }) (fun _ _ => some 1)).threw =
        some JsError.typeError ∧
      (handleTouchEnd
        (touchSession { clientX := 100, clientY := 100 } 1 5 0 (some "1") [moveRight])
        sampleRoster (some { clientX := 400, clientY := 120 })
        (fun _ _ => some 1)).hook.draggedPlayer =
        some { teamIndex := 5, playerIndex := 0, playerId := some "1" } ∧
      (handleTouchEnd
        (touchSession { clientX := 100, clientY := 100 } 1 5 0 (some "1") [moveRight])
        sampleRoster (some { clientX := 400, clientY := 120 })
        (fun _ _ => some 1)).hook.touchState.isDragging = true := by
  decide

/-- What the handlers do clean, for a session made of one touch-start or drag-start on the idle
hook and of the events that follow it. After a touch-end, on any of its paths, no drop zone
carries the highlight marker, no ghost element remains in the document and no auto-scroll
interval is running; when the touch-end returns normally the whole hook is back to Idle, and when
its move throws, the dragged player and the touch state stay as they were. After a touch
direction-cancel the whole hook is back to Idle. After a pointer drag-end the dragged player is
cleared, the touch state is the initial one, and there is no ghost and no interval; the drag-end
removes no highlight marker, and a drop zone that still carries one had a drag-over that no
drag-leave and no drop on that zone followed. -/
theorem drag_session_cleanup (start : Touch) (element t p : Nat) (playerId : Option String)
    (moves : List MoveEvent) (events : List PointerEvent) :
    (∀ (balancedTeams : Roster) (changedTouch : Option Touch)
        (hitTest : Int → Int → Option Nat),
        (handleTouchEnd (touchSession start element t p playerId moves) balancedTeams
          changedTouch hitTest).hook.highlighted = [] ∧
        (handleTouchEnd (touchSession start element t p playerId moves) balancedTeams
          changedTouch hitTest).hook.ghosts = [] ∧
        (handleTouchEnd (touchSession start element t p playerId moves) balancedTeams
          changedTouch hitTest).hook.autoScrollInterval = none ∧
        ((handleTouchEnd (touchSession start element t p playerId moves) balancedTeams
            changedTouch hitTest).threw = none →
          (handleTouchEnd (touchSession start element t p playerId moves) balancedTeams
            changedTouch hitTest).hook = Hook.idle) ∧
        ((handleTouchEnd (touchSession start element t p playerId moves) balancedTeams
            changedTouch hitTest).threw ≠ none →
          (handleTouchEnd (touchSession start element t p playerId moves) balancedTeams
              changedTouch hitTest).hook.draggedPlayer =
              (touchSession start element t p playerId moves).draggedPlayer ∧
            (handleTouchEnd (touchSession start element t p playerId moves) balancedTeams
              changedTouch hitTest).hook.touchState =
              (touchSession start element t p playerId moves).touchState)) ∧
      (∀ (touch : Touch) (innerHeight : Int) (hitTest : Int → Int → Option Nat),
        (touchSession start element t p playerId moves).touchState.isDragging = false →
        (touchSession start element t p playerId moves).touchState.currentElement ≠ none →
        (touchSession start element t p playerId moves).touchState.startY ≠ 0 →
        ((touch.clientX -
              (touchSession start element t p playerId moves).touchState.startX).natAbs > 15 ∨
          (touch.clientY -
              (touchSession start element t p playerId moves).touchState.startY).natAbs > 15) →
        ¬ (((touch.clientX -
              (touchSession start element t p playerId moves).touchState.startX).natAbs : ℚ) >
            1.6 * ((touch.clientY -
              (touchSession start element t p playerId moves).touchState.startY).natAbs : ℚ)) →
        handleTouchMove (touchSession start element t p playerId moves) (some touch)
          innerHeight hitTest = Hook.idle) ∧
      ((handleDragEnd (pointerSession t p playerId events)).draggedPlayer = none ∧
        (handleDragEnd (pointerSession t p playerId events)).touchState = TouchState.initial ∧
        (handleDragEnd (pointerSession t p playerId events)).ghosts = [] ∧
        (handleDragEnd (pointerSession t p playerId events)).autoScrollInterval = none ∧
        (handleDragEnd (pointerSession t p playerId events)).highlighted =
          (pointerSession t p playerId events).highlighted ∧
        ∀ z ∈ (handleDragEnd (pointerSession t p playerId events)).highlighted,
          ∃ a b : List PointerEvent, events = a ++ PointerEvent.dragOver z :: b ∧
            ∀ e ∈ b, ¬ e.clears z) := by
  have hinv : TouchSessionInv (touchSession start element t p playerId moves) :=
    touchSessionInv_run _ moves (touchSessionInv_start start element t p playerId)
  refine ⟨?_, ?_, ?_⟩
  · intro balancedTeams changedTouch hitTest
    obtain ⟨h1, h2, h3, h4⟩ := handleTouchEnd_cleans _ balancedTeams changedTouch hitTest hinv
    refine ⟨h1, h2, h3, h4, ?_⟩
    intro hthrew
    rcases handleTouchEnd_hook_cases (touchSession start element t p playerId moves)
      balancedTeams changedTouch hitTest with ⟨hnone, -⟩ | ⟨-, hhook⟩
    · exact absurd hnone hthrew
    · rw [hhook]
      exact ⟨rfl, rfl⟩
  · intro touch innerHeight hitTest hpending hel hy hb hnh
    rw [horizontal_iff] at hnh
    obtain ⟨hg, hhl, hint⟩ := hinv.2 hpending
    have hb2 : (touch.clientY -
          (touchSession start element t p playerId moves).touchState.startY).natAbs > 15 ∨
        (touch.clientX -
          (touchSession start element t p playerId moves).touchState.startX).natAbs > 15 :=
      hb.symm
    have hres : handleTouchMove (touchSession start element t p playerId moves) (some touch)
        innerHeight hitTest =
        { touchSession start element t p playerId moves with
          autoScrollInterval := none
          touchState := TouchState.initial
          draggedPlayer := none } := by
      simp [handleTouchMove, hel, hy, hpending, hb2, hnh]
    rw [hres]
    simp [Hook.idle, hg, hhl]
  · obtain ⟨-, f2, f3, f4⟩ :=
      runPointer_frame (handleDragStart Hook.idle t p playerId) events
    refine ⟨rfl, f2, f4, f3, rfl, ?_⟩
    intro z hz
    rcases runPointer_highlighted (handleDragStart Hook.idle t p playerId) events z hz with
      ⟨hmem, -⟩ | h
    · simp [handleDragStart, Hook.idle] at hmem
    · exact h

/-- An instance on the test roster: a touch drag of Alice to the right, carried near the top
edge over team 1 (highlight and auto-scroll on), ends over team 1 and leaves the hook idle; a
pointer drag of Alice over team 1 followed by a drop on it and the drag-end leaves the hook idle
as well. -/
theorem drag_session_cleanup_witness :
    (touchSession { clientX := 100, clientY := 100 } 1 0 0 (some "1")
        [moveRight, moveOverTeamOne]).highlighted = [1] ∧
      (touchSession { clientX := 100, clientY := 100 } 1 0 0 (some "1")
        [moveRight, moveOverTeamOne]).autoScrollInterval = some (-8) ∧
      (handleTouchEnd
        (touchSession { clientX := 100, clientY := 100 } 1 0 0 (some "1")
          [moveRight, moveOverTeamOne])
        sampleRoster (some { clientX := 400, clientY := 120 }) (fun _ _ => some 1)).hook =
        Hook.idle ∧
      handleDragEnd (pointerSession 0 0 (some "1")
        [PointerEvent.dragOver 1, PointerEvent.drop 1 sampleRoster]) = Hook.idle :=
  ⟨by decide, by decide,
    ((drag_session_cleanup { clientX := 100, clientY := 100 } 1 0 0 (some "1")
      [moveRight, moveOverTeamOne] []).1 sampleRoster
        (some { clientX := 400, clientY := 120 }) (fun _ _ => some 1)).2.2.2.1 (by decide),
    by decide⟩

/-- A pointer drag of Alice passes over the drop zone of team 1 and ends with no drag-leave and
no drop handled on that zone: `handleDragEnd` clears the dragged player and leaves the highlight
marker on the zone, where `handleTouchEnd` takes the marker off every drop zone. -/
theorem handleDragEnd_keeps_highlight :
    (handleDragEnd (pointerSession 0 0 (some "1") [PointerEvent.dragOver 1])).draggedPlayer =
        none ∧
      (handleDragEnd (pointerSession 0 0 (some "1") [PointerEvent.dragOver 1])).highlighted =
        [1] := by
  decide

/-- C20, the code at the failing input: a touch on Alice at (100, 100) is dragged to the right,
which appends ghost element 1 to the document and records it; a second touch-start, on Charlie
at (200, 300), overwrites the touch state with `ghostElement: null` and removes nothing
(`Teams.js:89-98`); the touch-end that follows returns normally by its tap path, finds no
recorded ghost to remove (`Teams.js:239-241`) and resets the session state. The session has
ended, nothing was published, and ghost element 1 is still in the document. -/
theorem second_touch_start_orphans_ghost :
    (touchSession { clientX := 100, clientY := 100 } 1 0 0 (some "1") [moveRight]).ghosts =
        [1] ∧
      (touchSession { clientX := 100, clientY := 100 } 1 0 0 (some "1")
        [moveRight]).touchState.ghostElement = some 1 ∧
      (handleTouchStart
        (touchSession { clientX := 100, clientY := 100 } 1 0 0 (some "1") [moveRight])
        { clientX := 200, clientY := 300 } 2 1 0 (some "3")).touchState.ghostElement = none ∧
      (handleTouchEnd
        (handleTouchStart
          (touchSession { clientX := 100, clientY := 100 } 1 0 0 (some "1") [moveRight])
          { clientX := 200, clientY := 300 } 2 1 0 (some "3"))
        sampleRoster (some { clientX := 200, clientY := 300 }) (fun _ _ => some 1)).threw =
        none ∧
      (handleTouchEnd
        (handleTouchStart
          (touchSession { clientX := 100, clientY := 100 } 1 0 0 (some "1") [moveRight])
          { clientX := 200, clientY := 300 } 2 1 0 (some "3"))
        sampleRoster (some { clientX := 200, clientY := 300 }) (fun _ _ => some 1)).published =
        [] ∧
      (handleTouchEnd
        (handleTouchStart
          (touchSession { clientX := 100, clientY := 100 } 1 0 0 (some "1") [moveRight])
          { clientX := 200, clientY := 300 } 2 1 0 (some "3"))
        sampleRoster (some { clientX := 200, clientY := 300 }) (fun _ _ => some 1)).hook =
        { Hook.idle with ghosts := [1] } := by
  decide

/-! ## Password reset, step 2 -/

theorem any_range_iff (s : String) (lo hi : Nat) :
    (s.toList.any fun c => decide (lo ≤ c.toNat ∧ c.toNat ≤ hi)) = true ↔
      ∃ c ∈ s.toList, lo ≤ c.toNat ∧ c.toNat ≤ hi := by
  simp [List.any_eq_true]

/-- C21: `PasswordResetStep2.handleSubmit` calls the reset-password mutation if and only if
`newPassword` equals `confirmNewPassword`, `newPassword` has at least 6 characters (UTF-16 code
units, as `length` counts them), `newPassword` differs from `currentPassword`, and `newPassword`
contains at least one character in A-Z, one in a-z and one in 0-9; when it is called, it is
called once, with the payload `{username, currentPassword, newPassword}` of the `username` and
`currentPassword` received from step 1. -/
theorem handleSubmit_calls_mutation_iff (username currentPassword newPassword
    confirmNewPassword : String) :
    ((newPassword = confirmNewPassword ∧ 6 ≤ jsLength newPassword ∧
          newPassword ≠ currentPassword ∧
          (∃ c ∈ newPassword.toList, 65 ≤ c.toNat ∧ c.toNat ≤ 90) ∧
          (∃ c ∈ newPassword.toList, 97 ≤ c.toNat ∧ c.toNat ≤ 122) ∧
          (∃ c ∈ newPassword.toList, 48 ≤ c.toNat ∧ c.toNat ≤ 57)) →
        (PasswordResetStep2.handleSubmit username currentPassword newPassword
          confirmNewPassword).mutateCalls =
          [{ username := username, currentPassword := currentPassword
             newPassword := newPassword }]) ∧
      (¬ (newPassword = confirmNewPassword ∧ 6 ≤ jsLength newPassword ∧
          newPassword ≠ currentPassword ∧
          (∃ c ∈ newPassword.toList, 65 ≤ c.toNat ∧ c.toNat ≤ 90) ∧
          (∃ c ∈ newPassword.toList, 97 ≤ c.toNat ∧ c.toNat ≤ 122) ∧
          (∃ c ∈ newPassword.toList, 48 ≤ c.toNat ∧ c.toNat ≤ 57)) →
        (PasswordResetStep2.handleSubmit username currentPassword newPassword
          confirmNewPassword).mutateCalls = []) := by
  rw [← any_range_iff newPassword 65 90, ← any_range_iff newPassword 97 122,
    ← any_range_iff newPassword 48 57]
  change (_ ∧ _ ∧ _ ∧ matchesUpper newPassword = true ∧ matchesLower newPassword = true ∧
    matchesDigit newPassword = true → _) ∧ (¬ (_ ∧ _ ∧ _ ∧ matchesUpper newPassword = true ∧
    matchesLower newPassword = true ∧ matchesDigit newPassword = true) → _)
  constructor
  · rintro ⟨h1, h2, h3, h4, h5, h6⟩
    have h2n : ¬ jsLength newPassword < 6 := by omega
    subst h1
    simp [PasswordResetStep2.handleSubmit, h2n, h3, h4, h5, h6]
  · intro hnot
    unfold PasswordResetStep2.handleSubmit
    split_ifs with c1 c2 c3 c4
    · rfl
    · rfl
    · rfl
    · rfl
    · exfalso
      apply hnot
      simp only [Bool.or_eq_true, Bool.not_eq_true', not_or, Bool.not_eq_false] at c4
      exact ⟨not_not.mp c1, by omega, c3, c4.1.1, c4.1.2, c4.2⟩

/-- Witness of C21: the new password `NewPass1` typed twice is submitted for the user of
step 1; the password `newpass1`, without an upper-case letter, is not. -/
theorem handleSubmit_calls_mutation_iff_witness :
    (PasswordResetStep2.handleSubmit "TestUser" "oldPass1" "NewPass1" "NewPass1").mutateCalls =
        [{ username := "TestUser", currentPassword := "oldPass1", newPassword := "NewPass1" }] ∧
      (PasswordResetStep2.handleSubmit "TestUser" "oldPass1" "newpass1" "newpass1").mutateCalls =
        [] :=
  ⟨(handleSubmit_calls_mutation_iff "TestUser" "oldPass1" "NewPass1" "NewPass1").1
      ⟨rfl, by decide, by decide, ⟨'N', by decide, by decide⟩, ⟨'e', by decide, by decide⟩,
        ⟨'1', by decide, by decide⟩⟩,
    (handleSubmit_calls_mutation_iff "TestUser" "oldPass1" "newpass1" "newpass1").2
      (by
        rintro ⟨-, -, -, ⟨c, hc, hrange⟩, -⟩
        have hall : ∀ x ∈ "newpass1".toList, ¬ (65 ≤ x.toNat ∧ x.toNat ≤ 90) := by decide
        exact hall c hc hrange)⟩

/-- C22: when `PasswordResetStep2.handleSubmit` rejects the input, the error message set is that
of the first failing check, in this order: the two passwords differ; the new password has fewer
than 6 characters; the new password equals the current one; the new password lacks an upper-case
letter, a lower-case letter or a digit; and in every rejected case the mutation is not called. -/
theorem handleSubmit_first_failing_check (username currentPassword newPassword
    confirmNewPassword : String) :
    (newPassword ≠ confirmNewPassword →
        PasswordResetStep2.handleSubmit username currentPassword newPassword
          confirmNewPassword =
          { error := "Passwords do not match", mutateCalls := [] }) ∧
      (newPassword = confirmNewPassword → jsLength newPassword < 6 →
        PasswordResetStep2.handleSubmit username currentPassword newPassword
          confirmNewPassword =
          { error := "Password must be at least 6 characters long", mutateCalls := [] }) ∧
      (newPassword = confirmNewPassword → 6 ≤ jsLength newPassword →
        newPassword = currentPassword →
        PasswordResetStep2.handleSubmit username currentPassword newPassword
          confirmNewPassword =
          { error := "New password cannot be the same as the current password"
            mutateCalls := [] }) ∧
      (newPassword = confirmNewPassword → 6 ≤ jsLength newPassword →
        newPassword ≠ currentPassword →
        (matchesUpper newPassword = false ∨ matchesLower newPassword = false ∨
          matchesDigit newPassword = false) →
        PasswordResetStep2.handleSubmit username currentPassword newPassword
          confirmNewPassword =
          { error :=
              "Password must include at least one uppercase letter, one lowercase letter, and one number"
            mutateCalls := [] }) ∧
      ((PasswordResetStep2.handleSubmit username currentPassword newPassword
          confirmNewPassword).error ≠ "" →
        (PasswordResetStep2.handleSubmit username currentPassword newPassword
          confirmNewPassword).mutateCalls = []) := by
  refine ⟨?_, ?_, ?_, ?_, ?_⟩
  · intro h
    simp [PasswordResetStep2.handleSubmit, h]
  · intro h1 h2
    subst h1
    simp [PasswordResetStep2.handleSubmit, h2]
  · intro h1 h2 h3
    have h2n : ¬ jsLength newPassword < 6 := by omega
    subst h1
    subst h3
    simp [PasswordResetStep2.handleSubmit, h2n]
  · intro h1 h2 h3 h4
    have h2n : ¬ jsLength newPassword < 6 := by omega
    subst h1
    rcases h4 with h | h | h <;> simp [PasswordResetStep2.handleSubmit, h2n, h3, h]
  · intro herr
    unfold PasswordResetStep2.handleSubmit at herr ⊢
    split_ifs at herr ⊢ <;> first | rfl | exact absurd rfl herr

/-- Witness of C22: a short password that also lacks a digit and an upper-case letter is
rejected for its length, and a mismatch is reported before anything else. -/
theorem handleSubmit_first_failing_check_witness :
    PasswordResetStep2.handleSubmit "TestUser" "oldPass1" "abc" "abc" =
        { error := "Password must be at least 6 characters long", mutateCalls := [] } ∧
      PasswordResetStep2.handleSubmit "TestUser" "oldPass1" "abc" "abd" =
        { error := "Passwords do not match", mutateCalls := [] } :=
  ⟨(handleSubmit_first_failing_check "TestUser" "oldPass1" "abc" "abc").2.1 rfl (by decide),
    (handleSubmit_first_failing_check "TestUser" "oldPass1" "abc" "abd").1 (by decide)⟩

/-! ## The API routes -/

theorem findOne_some (users : List User) (test : User → Bool) (position : Nat) (user : User)
    (h : findOne users test = some (position, user)) :
    users[position]? = some user ∧ test user = true := by
  unfold findOne at h
  have htest := List.find?_some (p := fun entry : Nat × User => test entry.2) h
  exact ⟨List.mk_mem_enum_iff_getElem?.mp (List.mem_of_find?_eq_some h), htest⟩

/-- C23: the `POST` of `api/reset-password` assigns `user.password = newPassword` and calls
`user.save` only when `username`, `currentPassword` and `newPassword` are all present, a user with
that username exists and `bcrypt.compare(currentPassword, stored password)` is true, and then it
saves that user with the new password, once; the stored passwords change only when that save is
made; in the 400 and 401 outcomes `save` is not called and the stored passwords are unchanged. -/
theorem resetPassword_saves_only_when_verified (env : Backend) (users : List User)
    (origin : Option String) (body : Option ResetBody) :
    ((resetPasswordPOST env users origin body).effects ≠ [] →
        ∃ (b : ResetBody) (position : Nat) (user : User),
          body = some b ∧ truthy b.username = true ∧ truthy b.currentPassword = true ∧
          truthy b.newPassword = true ∧ users[position]? = some user ∧
          some user.username = b.username ∧
          env.compare (b.currentPassword.getD "") user.password = true ∧
          (resetPasswordPOST env users origin body).effects =
            [Effect.save user.username (b.newPassword.getD "")]) ∧
      ((resetPasswordPOST env users origin body).users ≠ users →
        (resetPasswordPOST env users origin body).effects ≠ []) ∧
      ((resetPasswordPOST env users origin body).response.status = 400 ∨
          (resetPasswordPOST env users origin body).response.status = 401 →
        (resetPasswordPOST env users origin body).effects = [] ∧
        (resetPasswordPOST env users origin body).users = users) := by
  by_cases hc : env.connectFails = true
  · simp [resetPasswordPOST, hc, jsonResponse]
  cases body with
  | none => simp [resetPasswordPOST, hc, jsonResponse]
  | some b =>
    by_cases hfields : (!truthy b.username || !truthy b.currentPassword ||
        !truthy b.newPassword) = true
    · simp only [resetPasswordPOST, hc, hfields]
      simp [jsonResponse]
    by_cases hf : env.findFails = true
    · simp only [resetPasswordPOST, hc, hfields, hf]
      simp [jsonResponse]
    cases hfind : findOne users (fun u => some u.username == b.username) with
    | none =>
      simp only [resetPasswordPOST, hc, hfields, hf, hfind]
      simp [jsonResponse]
    | some found =>
      obtain ⟨position, user⟩ := found
      obtain ⟨hget, htest⟩ := findOne_some users _ position user hfind
      by_cases hcmp : env.compare (b.currentPassword.getD "") user.password = true
      · have hpresent : truthy b.username = true ∧ truthy b.currentPassword = true ∧
            truthy b.newPassword = true := by
          simp only [Bool.or_eq_true, Bool.not_eq_true', not_or, Bool.not_eq_false] at hfields
          exact ⟨hfields.1.1, hfields.1.2, hfields.2⟩
        have hname : some user.username = b.username := by simpa using htest
        by_cases hs : env.saveFails = true
        · simp only [resetPasswordPOST, hc, hfields, hf, hfind, hcmp, hs]
          refine ⟨fun _ => ⟨b, position, user, rfl, hpresent.1, hpresent.2.1, hpresent.2.2,
            hget, hname, hcmp, by simp⟩, by simp, by simp [jsonResponse]⟩
        · simp only [resetPasswordPOST, hc, hfields, hf, hfind, hcmp, hs]
          refine ⟨fun _ => ⟨b, position, user, rfl, hpresent.1, hpresent.2.1, hpresent.2.2,
            hget, hname, hcmp, by simp⟩, by simp, by simp [jsonResponse]⟩
      · simp only [resetPasswordPOST, hc, hfields, hf, hfind, hcmp]
        simp [jsonResponse]

/-- Witness of C23 on the collection of one user: the request with the right current password
saves the new one; the request with a wrong current password is answered 401 and changes
nothing. -/
theorem resetPassword_saves_only_when_verified_witness :
    (resetPasswordPOST workingBackend sampleUsers none
        (some { username := some "test@example.com", currentPassword := some "old"
                newPassword := some "NewPass1" })).effects =
        [Effect.save "test@example.com" "NewPass1"] ∧
      (resetPasswordPOST workingBackend sampleUsers none
        (some { username := some "test@example.com", currentPassword := some "wrong"
                newPassword := some "NewPass1" })).effects = [] ∧
      (resetPasswordPOST workingBackend sampleUsers none
        (some { username := some "test@example.com", currentPassword := some "wrong"
                newPassword := some "NewPass1" })).users = sampleUsers :=
  ⟨by decide,
    (resetPassword_saves_only_when_verified workingBackend sampleUsers none
      (some { username := some "test@example.com", currentPassword := some "wrong"
              newPassword := some "NewPass1" })).2.2 (Or.inr (by decide))⟩

/-- C24: the `POST` of `api/verify-credentials` returns the same response, status 401 with the
body `{success: false, message: 'Invalid credentials'}`, when no user has the given username as
when the user exists but the password does not match: for any two such requests the responses are
equal, so they do not tell which of username or password was wrong. -/
theorem verifyCredentials_same_failure (env : Backend) (users : List User)
    (origin : Option String) (unknown wrong : VerifyBody) (position : Nat) (user : User)
    (hconnect : env.connectFails = false) (hfind : env.findFails = false)
    (hu1 : truthy unknown.username = true) (hp1 : truthy unknown.password = true)
    (hu2 : truthy wrong.username = true) (hp2 : truthy wrong.password = true)
    (hnone : findOne users (fun u => some u.username == unknown.username) = none)
    (hsome : findOne users (fun u => some u.username == wrong.username) =
      some (position, user))
    (hmismatch : env.compare (wrong.password.getD "") user.password = false) :
    (verifyCredentialsPOST env users origin (some unknown)).response =
        (verifyCredentialsPOST env users origin (some wrong)).response ∧
      (verifyCredentialsPOST env users origin (some unknown)).response.status = 401 ∧
      (verifyCredentialsPOST env users origin (some unknown)).response.success = some false ∧
      (verifyCredentialsPOST env users origin (some unknown)).response.message =
        "Invalid credentials" ∧
      (verifyCredentialsPOST env users origin (some unknown)).response.error = none := by
  simp [verifyCredentialsPOST, hconnect, hfind, hu1, hp1, hu2, hp2, hnone, hsome, hmismatch,
    jsonResponse]

/-- Witness of C24 on the collection of one user: an unknown username and a wrong password for
the known username get the same response. -/
theorem verifyCredentials_same_failure_witness :
    (verifyCredentialsPOST workingBackend sampleUsers none
        (some { username := some "nobody@example.com", password := some "old" })).response =
      (verifyCredentialsPOST workingBackend sampleUsers none
        (some { username := some "test@example.com", password := some "wrong" })).response :=
  (verifyCredentials_same_failure workingBackend sampleUsers none
    { username := some "nobody@example.com", password := some "old" }
    { username := some "test@example.com", password := some "wrong" } 0
    { username := "test@example.com", email := some "test@example.com", name := some "Test"
      password := "#old" }
    rfl rfl (by decide) (by decide) (by decide) (by decide) (by decide) (by decide)
    (by decide)).1

/-- C25: in the `POST` of `api/send-temporary-password`, for every request that finds a user,
the first outside call is `user.save` with the new temporary password; when the save completes,
`sendTemporaryPasswordEmail` is invoked next, once, with that same password, and the stored
password is the new temporary one whether or not sending the email fails; when the save fails,
the email function is not invoked. -/
theorem sendTemporaryPassword_saves_before_email (env : Backend) (users : List User)
    (origin : Option String) (b : TemporaryBody) (mantissa exponent position : Nat)
    (user : User)
    (hconnect : env.connectFails = false) (hfind : env.findFails = false)
    (hfound : findForTemporary users b = some (position, user)) :
    (sendTemporaryPasswordPOST env users origin (some b) mantissa exponent).effects.head? =
        some (Effect.save user.username (generateTemporaryPassword mantissa exponent)) ∧
      (env.saveFails = false →
        (sendTemporaryPasswordPOST env users origin (some b) mantissa exponent).effects =
          [Effect.save user.username (generateTemporaryPassword mantissa exponent),
            Effect.sendEmail user.username (displayName user)
              (generateTemporaryPassword mantissa exponent)] ∧
        (sendTemporaryPasswordPOST env users origin (some b) mantissa exponent).users =
          users.set position
            { user with password := env.hash (generateTemporaryPassword mantissa exponent) }) ∧
      (env.saveFails = true →
        (sendTemporaryPasswordPOST env users origin (some b) mantissa exponent).effects =
          [Effect.save user.username (generateTemporaryPassword mantissa exponent)] ∧
        (sendTemporaryPasswordPOST env users origin (some b) mantissa exponent).users =
          users) := by
  cases hs : env.saveFails with
  | true => simp [sendTemporaryPasswordPOST, hconnect, hfind, hfound, hs]
  | false =>
    cases he : env.emailError <;>
      simp [sendTemporaryPasswordPOST, hconnect, hfind, hfound, hs, he]

/-- Witness of C25: a request by email while the email service is down. The password is saved
first, the email call gets the saved password, and the collection keeps the new password. -/
theorem sendTemporaryPassword_saves_before_email_witness :
    (sendTemporaryPasswordPOST { workingBackend with emailError := some "SMTP connection failed" }
        sampleUsers none (some { email := some "test@example.com", username := none })
        2251799813685248 53).effects =
        [Effect.save "test@example.com" (generateTemporaryPassword 2251799813685248 53),
          Effect.sendEmail "test@example.com" "test@example.com"
            (generateTemporaryPassword 2251799813685248 53)] ∧
      (sendTemporaryPasswordPOST { workingBackend with emailError := some "SMTP connection failed" }
        sampleUsers none (some { email := some "test@example.com", username := none })
        2251799813685248 53).users =
        [{ username := "test@example.com", email := some "test@example.com", name := some "Test"
           password := "#" ++ generateTemporaryPassword 2251799813685248 53 }] :=
  ((sendTemporaryPassword_saves_before_email
    { workingBackend with emailError := some "SMTP connection failed" } sampleUsers none
    { email := some "test@example.com", username := none } 2251799813685248 53 0
    { username := "test@example.com", email := some "test@example.com", name := some "Test"
      password := "#old" }
    rfl rfl (by decide)).2.1 rfl)

/-- C26, the code at the failing input: `sendTemporaryPasswordEmail` rejects with
`new Error('Email service unavailable')`, as in the test. The response has status 500, success
false and the expected message, but its `error` field is the message of the rejection, not
`Email service error`. -/
theorem sendTemporaryPassword_leaks_email_error :
    (sendTemporaryPasswordPOST
        { workingBackend with emailError := some "Email service unavailable" }
        sampleUsers none (some { email := some "test@example.com", username := none })
        2251799813685248 53).response =
      { status := 500, success := some false
        message := "Password reset but failed to send email. Please contact support."
        error := some "Email service unavailable"
        headers := [] } := by
  decide

theorem generateTemporaryPassword_length_le (mantissa exponent : Nat) :
    (generateTemporaryPassword mantissa exponent).length ≤ 13 := by
  simp only [generateTemporaryPassword, substring, String.length, List.length_drop,
    List.length_take]
  omega

/-- C27, the code at the failing inputs: when `Math.random()` returns 1/2, whose base-36 string
is `0.i`, the temporary password is the one-character string `i`; when it returns 0, whose string
is `0`, the temporary password is the empty string. Both are shorter than 8 characters. -/
theorem generateTemporaryPassword_short :
    toStringRadix36 1 1 = "0.i" ∧
      generateTemporaryPassword 1 1 = "i" ∧
      jsLength (generateTemporaryPassword 1 1) = 1 ∧
      toStringRadix36 0 0 = "0" ∧
      generateTemporaryPassword 0 0 = "" ∧
      jsLength (generateTemporaryPassword 0 0) = 0 := by
  decide

/-! ## Password help -/

/-- C28, the code at the failing input: the username `test@example.com` is submitted and the
API response is ok. The error is empty and the username field is cleared, but the message shown
ends in `Please contact your administrator to receive it.`, not in
`and sent to your email address.` as the tests expect. -/
theorem passwordHelp_success_message :
    PasswordHelp.handleSubmit
        { username := "test@example.com", loading := false, message := "", error := "" }
        (FetchOutcome.response true (some none)) =
      { state :=
          { username := ""
            loading := false
            message :=
              "If an account exists with this email, a temporary password has been generated. Please contact your administrator to receive it."
            error := "" }
        posted := ["test@example.com"] } ∧
      (PasswordHelp.handleSubmit
        { username := "test@example.com", loading := false, message := "", error := "" }
        (FetchOutcome.response true (some none))).state.message ≠
        "If an account exists with this email, a temporary password has been generated and sent to your email address." := by
  decide

/-! ## The published roster does not depend on the recorded player id -/

/-- C30: the roster published by `handleDrop` and by `handleTouchEnd` depends only on the input
roster, the recorded source team index, the recorded player index and the destination index: two
drag sessions whose recorded team index and player index agree, whatever their recorded player
ids, publish the same rosters (and end the same way, leaving the teams the same), on the pointer
drop and, when both are or both are not Dragging, on the touch-end. -/
theorem published_independent_of_playerId (hook1 hook2 : Hook) (dragged1 dragged2 : DraggedPlayer)
    (balancedTeams : Roster) (destTeamIndex : Nat) (changedTouch : Option Touch)
    (hitTest : Int → Int → Option Nat)
    (h1 : hook1.draggedPlayer = some dragged1) (h2 : hook2.draggedPlayer = some dragged2)
    (hteam : dragged1.teamIndex = dragged2.teamIndex)
    (hplayer : dragged1.playerIndex = dragged2.playerIndex)
    (hdragging : hook1.touchState.isDragging = hook2.touchState.isDragging) :
    ((handleDrop hook1 balancedTeams destTeamIndex).published =
          (handleDrop hook2 balancedTeams destTeamIndex).published ∧
        (handleDrop hook1 balancedTeams destTeamIndex).threw =
          (handleDrop hook2 balancedTeams destTeamIndex).threw ∧
        (handleDrop hook1 balancedTeams destTeamIndex).teamsNow =
          (handleDrop hook2 balancedTeams destTeamIndex).teamsNow) ∧
      ((handleTouchEnd hook1 balancedTeams changedTouch hitTest).published =
          (handleTouchEnd hook2 balancedTeams changedTouch hitTest).published ∧
        (handleTouchEnd hook1 balancedTeams changedTouch hitTest).threw =
          (handleTouchEnd hook2 balancedTeams changedTouch hitTest).threw ∧
        (handleTouchEnd hook1 balancedTeams changedTouch hitTest).teamsNow =
          (handleTouchEnd hook2 balancedTeams changedTouch hitTest).teamsNow) := by
  constructor
  · simp only [handleDrop, h1, h2, hteam, hplayer]
    split_ifs <;> exact ⟨rfl, rfl, rfl⟩
  · cases hd : hook2.touchState.isDragging with
    | false => simp [handleTouchEnd, hd, hdragging]
    | true =>
      have hd1 : hook1.touchState.isDragging = true := by rw [hdragging, hd]
      cases changedTouch with
      | none => simp [handleTouchEnd, hd, hd1]
      | some touch =>
        cases hhit : hitTest touch.clientX touch.clientY with
        | none => simp [handleTouchEnd, hd, hd1, hhit]
        | some d =>
          by_cases hne : dragged2.teamIndex = d
          · have hne1 : dragged1.teamIndex = d := by rw [hteam, hne]
            simp [handleTouchEnd, hd, hd1, hhit, h1, h2, hne, hne1]
          · have hne1 : dragged1.teamIndex ≠ d := by rw [hteam]; exact hne
            obtain ⟨p1, t1⟩ :=
              handleTouchEnd_of_move hook1 balancedTeams touch hitTest d dragged1 hd1 hhit h1 hne1
            obtain ⟨p2, t2⟩ :=
              handleTouchEnd_of_move hook2 balancedTeams touch hitTest d dragged2 hd hhit h2 hne
            have n1 := handleTouchEnd_teamsNow_of_move hook1 balancedTeams touch hitTest d
              dragged1 hd1 hhit h1 hne1
            have n2 := handleTouchEnd_teamsNow_of_move hook2 balancedTeams touch hitTest d
              dragged2 hd hhit h2 hne
            rw [p1, p2, t1, t2, n1, n2, hteam, hplayer]
            exact ⟨rfl, rfl, rfl⟩

/-- Witness of C30 on the test roster: a drag recorded with team index 0, player index 0 and
the id of Bob publishes what the drag recorded with the id of Alice publishes, and the player
moved to team 1 is Alice, who sits at index 0. -/
theorem published_independent_of_playerId_witness :
    (handleDrop (draggingFrom 0 0 (some "2")) sampleRoster 1).published =
        (handleDrop (draggingFrom 0 0 (some "1")) sampleRoster 1).published ∧
      (handleDrop (draggingFrom 0 0 (some "2")) sampleRoster 1).published.map
          (fun r => r.map Team.players) =
        [[[some bob], [some charlie, some alice]]] ∧
      (handleTouchEnd (touchDraggingFrom 0 0 (some "2")) sampleRoster
          (some { clientX := 400, clientY := 120 }) (fun _ _ => some 1)).published =
        (handleTouchEnd (touchDraggingFrom 0 0 (some "1")) sampleRoster
          (some { clientX := 400, clientY := 120 }) (fun _ _ => some 1)).published :=
  ⟨(published_independent_of_playerId (draggingFrom 0 0 (some "2"))
      (draggingFrom 0 0 (some "1"))
      { teamIndex := 0, playerIndex := 0, playerId := some "2" }
      { teamIndex := 0, playerIndex := 0, playerId := some "1" }
      sampleRoster 1 none (fun _ _ => none) rfl rfl rfl rfl rfl).1.1,
    by decide,
    (published_independent_of_playerId (touchDraggingFrom 0 0 (some "2"))
      (touchDraggingFrom 0 0 (some "1"))
      { teamIndex := 0, playerIndex := 0, playerId := some "2" }
      { teamIndex := 0, playerIndex := 0, playerId := some "1" }
      sampleRoster 1 (some { clientX := 400, clientY := 120 }) (fun _ _ => some 1)
      rfl rfl rfl rfl rfl).2.1⟩

/-! ## Team names are distinct -/

theorem digitChar_value (d : Nat) (h : d < 10) : (Nat.digitChar d).toNat - 48 = d := by
  interval_cases d <;> rfl

theorem toDigitsCore_value (fuel n : Nat) (ds : List Char) (h : n < fuel) :
    (Nat.toDigitsCore 10 fuel n ds).foldl (fun acc c => acc * 10 + (c.toNat - 48)) 0 =
      ds.foldl (fun acc c => acc * 10 + (c.toNat - 48)) n := by
  induction fuel generalizing n ds with
  | zero => omega
  | succ fuel ih =>
    simp only [Nat.toDigitsCore]
    split_ifs with h0
    · have hn : n % 10 = n := by omega
      have hd := digitChar_value (n % 10) (Nat.mod_lt _ (by decide))
      rw [hn] at hd
      simp only [List.foldl_cons, hn, hd]
      simp
    · rw [ih (n / 10) _ (by omega)]
      simp only [List.foldl_cons, digitChar_value (n % 10) (Nat.mod_lt _ (by decide))]
      congr 1
      omega

theorem digitsValue_toDigits (n : Nat) : digitsValue (Nat.toDigits 10 n) = n := by
  unfold digitsValue Nat.toDigits
  rw [toDigitsCore_value (n + 1) n [] (Nat.lt_succ_self n)]
  rfl

theorem toString_nat_injective (a b : Nat) (h : toString a = toString b) : a = b := by
  have hdata : Nat.toDigits 10 a = Nat.toDigits 10 b := by
    have := congrArg String.data h
    simpa [toString, Nat.repr, List.asString] using this
  rw [← digitsValue_toDigits a, ← digitsValue_toDigits b, hdata]

theorem string_append_cancel (s x y : String) (h : s ++ x = s ++ y) : x = y := by
  have := congrArg String.data h
  rw [String.data_append, String.data_append] at this
  exact String.ext (List.append_cancel_left this)

theorem red_ne_black (x y : String) : "Red Team " ++ x ≠ "Black Team " ++ y := by
  intro h
  have := congrArg String.data h
  rw [String.data_append, String.data_append] at this
  have hhead := congrArg List.head? this
  simp at hhead

theorem getTeamName_other (balancedTeams : Roster) (i : Nat)
    (h2 : balancedTeams.length ≠ 2) (h3 : balancedTeams.length ≠ 3) :
    (i % 2 = 0 → getTeamName balancedTeams i = "Red Team " ++ toString (i / 2 + 1)) ∧
      (i % 2 = 1 → getTeamName balancedTeams i = "Black Team " ++ toString (i / 2 + 1)) := by
  constructor <;> intro hi <;> simp [getTeamName, h2, h3, hi]

/-- C29: for every roster and every two distinct indices `i` and `j` below its team count,
`getTeamName(i)` differs from `getTeamName(j)`: no two teams of the same roster are displayed
under the same name. -/
theorem getTeamName_injective (balancedTeams : Roster) (i j : Nat)
    (hi : i < balancedTeams.length) (hj : j < balancedTeams.length) (hij : i ≠ j) :
    getTeamName balancedTeams i ≠ getTeamName balancedTeams j := by
  by_cases h3 : balancedTeams.length = 3
  · rw [h3] at hi hj
    interval_cases i <;> interval_cases j <;> simp [getTeamName, h3] at hij ⊢
  by_cases h2 : balancedTeams.length = 2
  · rw [h2] at hi hj
    interval_cases i <;> interval_cases j <;> simp [getTeamName, h2] at hij ⊢
  obtain ⟨ie, io⟩ := getTeamName_other balancedTeams i h2 h3
  obtain ⟨je, jo⟩ := getTeamName_other balancedTeams j h2 h3
  rcases Nat.mod_two_eq_zero_or_one i with hi2 | hi2 <;>
    rcases Nat.mod_two_eq_zero_or_one j with hj2 | hj2
  · rw [ie hi2, je hj2]
    intro h
    have := toString_nat_injective _ _ (string_append_cancel _ _ _ h)
    omega
  · rw [ie hi2, jo hj2]
    exact red_ne_black _ _
  · rw [io hi2, je hj2]
    exact fun h => red_ne_black _ _ h.symm
  · rw [io hi2, jo hj2]
    intro h
    have := toString_nat_injective _ _ (string_append_cancel _ _ _ h)
    omega

/-- Witness of C29 on a roster of four teams: the teams at indices 0 and 2 have different
names. -/
theorem getTeamName_injective_witness :
    getTeamName (sampleRoster ++ sampleRoster) 0 ≠ getTeamName (sampleRoster ++ sampleRoster) 2 :=
  getTeamName_injective (sampleRoster ++ sampleRoster) 0 2 (by decide) (by decide) (by decide)

end TeamBalancer
